import Mathlib

/-!
# libtf: shape canonicalization and the invocation driver

A shallow embedding of `src/libtf.cc` (OpenMV's wrapper around TensorFlow Lite
Micro).  The three exported functions are embedded statement by statement:

* `libtf_get_input_data_hwc`
* `libtf_get_output_data_hwc`
* `libtf_invoke`

The inference engine is an external collaborator.  Everything the wrapper can
observe of it is collected in the record `Interpreter`; everything the wrapper
does to the outside world (engine calls, error reports, callbacks) is appended
to an event trace, and the `unsigned int` out-parameters are threaded through
explicitly.
-/

namespace Libtf

/-! ## Data model -/

/-- Engine status codes (`TfLiteStatus`); the wrapper only compares against `kTfLiteOk`. -/
inductive TfLiteStatus
  | kTfLiteOk
  | kTfLiteError
  deriving DecidableEq, Repr

/-- Declared dimension list of a tensor (`TfLiteIntArray`): `data` holds the `int`
entries, `size` is their number. -/
structure TfLiteIntArray where
  data : List Int
  deriving DecidableEq, Repr

/-- The `size` field of a `TfLiteIntArray`. -/
def TfLiteIntArray.size (a : TfLiteIntArray) : Int := a.data.length

/-- The entry `dims->data[i]`; the wrapper only reads indices below `size`. -/
def TfLiteIntArray.get (a : TfLiteIntArray) (i : Nat) : Int := a.data.getD i 0

/-- Largest value of a C `int` (32 bits). -/
def INT_MAX : Int := 2147483647

/-- Number of values of a C `unsigned int` (32 bits). -/
def UINT_MODULUS : Int := 4294967296

/-- Conversion of an `int` to `unsigned int`, as performed by the assignments
`*input_height = model_input->dims->data[0]` and friends. -/
def toUnsigned (v : Int) : Int := v % UINT_MODULUS

/-- Modelled from the spec: the callback typedefs of `libtf.h` are absent.  The spec
(section 6) gives both callbacks the same `(height, width, channels)` arguments as the
shape introspection functions return, so an argument is converted like an
`unsigned int` out-parameter. -/
def callbackArg (v : Int) : Int := toUnsigned v

/-- What the wrapper observes of the model and of the interpreter bound to it during
one call. -/
structure Interpreter where
  /-- Result of `model->version()`. -/
  version : Int
  /-- Status returned by `interpreter.AllocateTensors()`. -/
  AllocateTensors : TfLiteStatus
  /-- The array `interpreter.input(0)->dims` after allocation. -/
  input0 : TfLiteIntArray
  /-- The array `interpreter.output(0)->dims` after allocation. -/
  output0 : TfLiteIntArray
  /-- Status returned by `interpreter.Invoke()`. -/
  Invoke : TfLiteStatus
  /-- The array `interpreter.output(0)->dims` after `Invoke()` returned. -/
  output0Invoked : TfLiteIntArray
  deriving DecidableEq, Repr

/-- Externally visible actions of one call, in program order. -/
inductive Event
  /-- Call of `error_reporter->Report(msg)`. -/
  | Report (msg : String)
  /-- Call of `interpreter.AllocateTensors()`. -/
  | AllocateTensors
  /-- Call of `interpreter.input(i)`. -/
  | input (i : Nat)
  /-- Call of `interpreter.output(i)`. -/
  | output (i : Nat)
  /-- Call of `interpreter.Invoke()`. -/
  | Invoke
  /-- Call of `input_callback(data, buffer, h, w, c)`. -/
  | input_callback (h w c : Int)
  /-- Call of `output_callback(data, buffer, h, w, c)`. -/
  | output_callback (h w c : Int)
  deriving DecidableEq, Repr

/-- The three `unsigned int` cells the introspection functions write through. -/
structure Hwc where
  height : Int
  width : Int
  channels : Int
  deriving DecidableEq, Repr

/-- Outcome of a shape introspection call: return value, final contents of the
out-parameters, and the trace. -/
structure ShapeResult where
  ret : Int
  out : Hwc
  trace : List Event
  deriving DecidableEq, Repr

/-- Outcome of `libtf_invoke`: return value and the trace. -/
structure InvokeResult where
  ret : Int
  trace : List Event
  deriving DecidableEq, Repr

/-! ## Messages passed to the error reporter -/

/-- Reported when `model->version()` differs from `TFLITE_SCHEMA_VERSION`. -/
def MSG_SCHEMA_VERSION : String :=
  "Model provided is schema version is not equal to supported version!"

/-- Reported when `AllocateTensors()` does not return `kTfLiteOk`. -/
def MSG_ALLOCATE_TENSORS : String := "AllocateTensors() failed!"

/-- Reported when the last input dimension is neither 1 nor 3. -/
def MSG_INPUT_CHANNELS : String := "Input dimension [c] should be 1 or 3!"

/-- Reported when the first dimension of a rank-4 input is not 1. -/
def MSG_INPUT_BATCH : String := "Input dimension [n] should be 1!"

/-- Reported when the input rank is none of 2, 3, 4. -/
def MSG_INPUT_DIMS : String :=
  "Input dimensions should be [h][w](c=1), [h][w][c==1||c==3], or [n==1][h][w][c==1||c==3]!"

/-- Reported when `Invoke()` does not return `kTfLiteOk`. -/
def MSG_INVOKE : String := "Invoke() failed!"

/-- Reported when the first dimension of a rank-2 or rank-4 output is not 1. -/
def MSG_OUTPUT_BATCH : String := "Output dimension [n] should be 1!"

/-- Reported when the output rank is none of 1, 2, 3, 4. -/
def MSG_OUTPUT_DIMS : String :=
  "Output dimensions should be [c], [n==1][c], [h][w][c], or [n==1][h][w][c]!"

/-! ## The three exported functions -/

/-- Embedding of `libtf_get_input_data_hwc`.  `TFLITE_SCHEMA_VERSION` is the constant of
`tensorflow/lite/version.h`; `out` holds the out-parameters before the call.  The
tensor type check under `#if 0` is compiled out and has no counterpart here. -/
def libtf_get_input_data_hwc (TFLITE_SCHEMA_VERSION : Int) (interpreter : Interpreter)
    (out : Hwc) : ShapeResult := Id.run do
  let mut trace : List Event := []
  let mut out := out
  if interpreter.version ≠ TFLITE_SCHEMA_VERSION then
    trace := trace ++ [Event.Report MSG_SCHEMA_VERSION]
    return ⟨1, out, trace⟩
  trace := trace ++ [Event.AllocateTensors]
  if interpreter.AllocateTensors ≠ TfLiteStatus.kTfLiteOk then
    trace := trace ++ [Event.Report MSG_ALLOCATE_TENSORS]
    return ⟨1, out, trace⟩
  trace := trace ++ [Event.input 0]
  let model_input := interpreter.input0
  if model_input.size = 2 then
    out := { out with height := toUnsigned (model_input.get 0) }
    out := { out with width := toUnsigned (model_input.get 1) }
    out := { out with channels := 1 }
    return ⟨0, out, trace⟩
  else if model_input.size = 3 then
    if model_input.get 2 ≠ 1 ∧ model_input.get 2 ≠ 3 then
      trace := trace ++ [Event.Report MSG_INPUT_CHANNELS]
      return ⟨1, out, trace⟩
    out := { out with height := toUnsigned (model_input.get 0) }
    out := { out with width := toUnsigned (model_input.get 1) }
    out := { out with channels := toUnsigned (model_input.get 2) }
    return ⟨0, out, trace⟩
  else if model_input.size = 4 then
    if model_input.get 0 ≠ 1 then
      trace := trace ++ [Event.Report MSG_INPUT_BATCH]
      return ⟨1, out, trace⟩
    if model_input.get 3 ≠ 1 ∧ model_input.get 3 ≠ 3 then
      trace := trace ++ [Event.Report MSG_INPUT_CHANNELS]
      return ⟨1, out, trace⟩
    out := { out with height := toUnsigned (model_input.get 1) }
    out := { out with width := toUnsigned (model_input.get 2) }
    out := { out with channels := toUnsigned (model_input.get 3) }
    return ⟨0, out, trace⟩
  else
    trace := trace ++ [Event.Report MSG_INPUT_DIMS]
    return ⟨1, out, trace⟩

/-- Embedding of `libtf_get_output_data_hwc`. -/
def libtf_get_output_data_hwc (TFLITE_SCHEMA_VERSION : Int) (interpreter : Interpreter)
    (out : Hwc) : ShapeResult := Id.run do
  let mut trace : List Event := []
  let mut out := out
  if interpreter.version ≠ TFLITE_SCHEMA_VERSION then
    trace := trace ++ [Event.Report MSG_SCHEMA_VERSION]
    return ⟨1, out, trace⟩
  trace := trace ++ [Event.AllocateTensors]
  if interpreter.AllocateTensors ≠ TfLiteStatus.kTfLiteOk then
    trace := trace ++ [Event.Report MSG_ALLOCATE_TENSORS]
    return ⟨1, out, trace⟩
  trace := trace ++ [Event.output 0]
  let model_output := interpreter.output0
  if model_output.size = 1 then
    out := { out with height := 1 }
    out := { out with width := 1 }
    out := { out with channels := toUnsigned (model_output.get 0) }
    return ⟨0, out, trace⟩
  else if model_output.size = 2 then
    if model_output.get 0 ≠ 1 then
      trace := trace ++ [Event.Report MSG_OUTPUT_BATCH]
      return ⟨1, out, trace⟩
    out := { out with height := 1 }
    out := { out with width := 1 }
    out := { out with channels := toUnsigned (model_output.get 1) }
    return ⟨0, out, trace⟩
  else if model_output.size = 3 then
    out := { out with height := toUnsigned (model_output.get 0) }
    out := { out with width := toUnsigned (model_output.get 1) }
    out := { out with channels := toUnsigned (model_output.get 2) }
    return ⟨0, out, trace⟩
  else if model_output.size = 4 then
    if model_output.get 0 ≠ 1 then
      trace := trace ++ [Event.Report MSG_OUTPUT_BATCH]
      return ⟨1, out, trace⟩
    out := { out with height := toUnsigned (model_output.get 1) }
    out := { out with width := toUnsigned (model_output.get 2) }
    out := { out with channels := toUnsigned (model_output.get 3) }
    return ⟨0, out, trace⟩
  else
    trace := trace ++ [Event.Report MSG_OUTPUT_DIMS]
    return ⟨1, out, trace⟩

/-- Embedding of `libtf_invoke`.  The callbacks are opaque to the wrapper; a call is
recorded in the trace with the shape arguments it receives. -/
def libtf_invoke (TFLITE_SCHEMA_VERSION : Int) (interpreter : Interpreter) :
    InvokeResult := Id.run do
  let mut trace : List Event := []
  if interpreter.version ≠ TFLITE_SCHEMA_VERSION then
    trace := trace ++ [Event.Report MSG_SCHEMA_VERSION]
    return ⟨1, trace⟩
  trace := trace ++ [Event.AllocateTensors]
  if interpreter.AllocateTensors ≠ TfLiteStatus.kTfLiteOk then
    trace := trace ++ [Event.Report MSG_ALLOCATE_TENSORS]
    return ⟨1, trace⟩
  trace := trace ++ [Event.input 0]
  let model_input := interpreter.input0
  if model_input.size = 2 then
    trace := trace ++ [Event.input_callback (callbackArg (model_input.get 0))
      (callbackArg (model_input.get 1)) (callbackArg 1)]
  else if model_input.size = 3 then
    if model_input.get 2 ≠ 1 ∧ model_input.get 2 ≠ 3 then
      trace := trace ++ [Event.Report MSG_INPUT_CHANNELS]
      return ⟨1, trace⟩
    trace := trace ++ [Event.input_callback (callbackArg (model_input.get 0))
      (callbackArg (model_input.get 1)) (callbackArg (model_input.get 2))]
  else if model_input.size = 4 then
    if model_input.get 0 ≠ 1 then
      trace := trace ++ [Event.Report MSG_INPUT_BATCH]
      return ⟨1, trace⟩
    if model_input.get 3 ≠ 1 ∧ model_input.get 3 ≠ 3 then
      trace := trace ++ [Event.Report MSG_INPUT_CHANNELS]
      return ⟨1, trace⟩
    trace := trace ++ [Event.input_callback (callbackArg (model_input.get 1))
      (callbackArg (model_input.get 2)) (callbackArg (model_input.get 3))]
  else
    trace := trace ++ [Event.Report MSG_INPUT_DIMS]
    return ⟨1, trace⟩
  trace := trace ++ [Event.Invoke]
  if interpreter.Invoke ≠ TfLiteStatus.kTfLiteOk then
    trace := trace ++ [Event.Report MSG_INVOKE]
    return ⟨1, trace⟩
  trace := trace ++ [Event.output 0]
  let model_output := interpreter.output0Invoked
  if model_output.size = 1 then
    trace := trace ++ [Event.output_callback (callbackArg 1) (callbackArg 1)
      (callbackArg (model_output.get 0))]
  else if model_output.size = 2 then
    if model_output.get 0 ≠ 1 then
      trace := trace ++ [Event.Report MSG_OUTPUT_BATCH]
      return ⟨1, trace⟩
    trace := trace ++ [Event.output_callback (callbackArg 1) (callbackArg 1)
      (callbackArg (model_output.get 1))]
  else if model_output.size = 3 then
    trace := trace ++ [Event.output_callback (callbackArg (model_output.get 0))
      (callbackArg (model_output.get 1)) (callbackArg (model_output.get 2))]
  else if model_output.size = 4 then
    if model_output.get 0 ≠ 1 then
      trace := trace ++ [Event.Report MSG_OUTPUT_BATCH]
      return ⟨1, trace⟩
    trace := trace ++ [Event.output_callback (callbackArg (model_output.get 1))
      (callbackArg (model_output.get 2)) (callbackArg (model_output.get 3))]
  else
    trace := trace ++ [Event.Report MSG_OUTPUT_DIMS]
    return ⟨1, trace⟩
  return ⟨0, trace⟩

/-! ## Vocabulary for the statements -/

/-- A declared dimension that is a positive C `int`. -/
def PositiveDim (d : Int) : Prop := 0 < d ∧ d ≤ INT_MAX

instance (d : Int) : Decidable (PositiveDim d) := by
  unfold PositiveDim; infer_instance

/-- An interpreter record with the given observations; used for concrete scenarios. -/
def scenario (version : Int) (alloc : TfLiteStatus) (input : List Int)
    (invoke : TfLiteStatus) (output : List Int) : Interpreter :=
  ⟨version, alloc, ⟨input⟩, ⟨output⟩, invoke, ⟨output⟩⟩

/-- Recognises calls of the input-fill callback. -/
def Event.isInputCallback : Event → Bool
  | Event.input_callback _ _ _ => true
  | _ => false

/-- Recognises calls of the output-read callback. -/
def Event.isOutputCallback : Event → Bool
  | Event.output_callback _ _ _ => true
  | _ => false

/-- Number of calls of the input-fill callback in a trace. -/
def inputCallbackCount (trace : List Event) : Nat := trace.countP Event.isInputCallback

/-- Number of calls of the output-read callback in a trace. -/
def outputCallbackCount (trace : List Event) : Nat := trace.countP Event.isOutputCallback

/-- Number of forward passes in a trace. -/
def invokeCount (trace : List Event) : Nat := trace.count Event.Invoke

/-- The interpreter as `libtf_invoke` sees it once `Invoke()` has returned: the output
dims are the ones read after the forward pass. -/
def Interpreter.afterInvoke (it : Interpreter) : Interpreter :=
  { it with output0 := it.output0Invoked }

/-- A declared dimension that is a non-negative C `int`. -/
def NonNegativeDim (d : Int) : Prop := 0 ≤ d ∧ d ≤ INT_MAX

instance (d : Int) : Decidable (NonNegativeDim d) := by
  unfold NonNegativeDim; infer_instance

/-- Messages reported when the input tensor's shape is rejected. -/
def inputShapeMessages : List String := [MSG_INPUT_CHANNELS, MSG_INPUT_BATCH, MSG_INPUT_DIMS]

/-- Messages reported when the output tensor's shape is rejected. -/
def outputShapeMessages : List String := [MSG_OUTPUT_BATCH, MSG_OUTPUT_DIMS]

/-- Proof device: the rank dispatch on the input tensor, which `libtf_get_input_data_hwc`
and `libtf_invoke` both contain, as a value: the triple, or the message reported.
`libtf_get_input_data_hwc_eq` and `libtf_invoke_eq` relate it to the embedded code. -/
def inputBranch (d : TfLiteIntArray) : Except String Hwc :=
  if d.size = 2 then .ok ⟨toUnsigned (d.get 0), toUnsigned (d.get 1), 1⟩
  else if d.size = 3 then
    if d.get 2 ≠ 1 ∧ d.get 2 ≠ 3 then .error MSG_INPUT_CHANNELS
    else .ok ⟨toUnsigned (d.get 0), toUnsigned (d.get 1), toUnsigned (d.get 2)⟩
  else if d.size = 4 then
    if d.get 0 ≠ 1 then .error MSG_INPUT_BATCH
    else if d.get 3 ≠ 1 ∧ d.get 3 ≠ 3 then .error MSG_INPUT_CHANNELS
    else .ok ⟨toUnsigned (d.get 1), toUnsigned (d.get 2), toUnsigned (d.get 3)⟩
  else .error MSG_INPUT_DIMS

/-- Proof device: the rank dispatch on the output tensor, which
`libtf_get_output_data_hwc` and `libtf_invoke` both contain, as a value. -/
def outputBranch (d : TfLiteIntArray) : Except String Hwc :=
  if d.size = 1 then .ok ⟨1, 1, toUnsigned (d.get 0)⟩
  else if d.size = 2 then
    if d.get 0 ≠ 1 then .error MSG_OUTPUT_BATCH
    else .ok ⟨1, 1, toUnsigned (d.get 1)⟩
  else if d.size = 3 then
    .ok ⟨toUnsigned (d.get 0), toUnsigned (d.get 1), toUnsigned (d.get 2)⟩
  else if d.size = 4 then
    if d.get 0 ≠ 1 then .error MSG_OUTPUT_BATCH
    else .ok ⟨toUnsigned (d.get 1), toUnsigned (d.get 2), toUnsigned (d.get 3)⟩
  else .error MSG_OUTPUT_DIMS

/-- An introspection call fails with message `msg`: it returns non-zero after reporting
`msg`. -/
def ShapeResult.failsWith (r : ShapeResult) (msg : String) : Prop :=
  r.ret ≠ 0 ∧ Event.Report msg ∈ r.trace

/-- A driver call fails with message `msg`: it returns non-zero after reporting `msg`. -/
def InvokeResult.failsWith (r : InvokeResult) (msg : String) : Prop :=
  r.ret ≠ 0 ∧ Event.Report msg ∈ r.trace

instance (r : ShapeResult) (msg : String) : Decidable (r.failsWith msg) := by
  unfold ShapeResult.failsWith; infer_instance

instance (r : InvokeResult) (msg : String) : Decidable (r.failsWith msg) := by
  unfold InvokeResult.failsWith; infer_instance

/-- The messages passed to the error reporter during a call, in order. -/
def reports : List Event → List String
  | [] => []
  | Event.Report msg :: rest => msg :: reports rest
  | _ :: rest => reports rest

/-- The failure kinds of the specification's error taxonomy (section 7). -/
inductive ErrorKind
  | SchemaVersionMismatch
  | AllocationFailure
  | UnsupportedRank
  | InvalidBatchSize
  | InvalidChannelCount
  | InferenceFailure
  deriving DecidableEq, Repr

/-- The failure kind that a reported message stands for; `none` for any other text. -/
def errorKind (msg : String) : Option ErrorKind :=
  if msg = MSG_SCHEMA_VERSION then some ErrorKind.SchemaVersionMismatch
  else if msg = MSG_ALLOCATE_TENSORS then some ErrorKind.AllocationFailure
  else if msg = MSG_INPUT_DIMS ∨ msg = MSG_OUTPUT_DIMS then some ErrorKind.UnsupportedRank
  else if msg = MSG_INPUT_BATCH ∨ msg = MSG_OUTPUT_BATCH then some ErrorKind.InvalidBatchSize
  else if msg = MSG_INPUT_CHANNELS then some ErrorKind.InvalidChannelCount
  else if msg = MSG_INVOKE then some ErrorKind.InferenceFailure
  else none

/-- The input rules in the words of the specification (section 4.2): rank 2; or rank 3
with the last dimension in `{1, 3}`; or rank 4 with the first dimension 1 and the last
dimension in `{1, 3}`. -/
def SpecInputRules (d : TfLiteIntArray) : Prop :=
  d.size = 2 ∨
  (d.size = 3 ∧ (d.get 2 = 1 ∨ d.get 2 = 3)) ∨
  (d.size = 4 ∧ d.get 0 = 1 ∧ (d.get 3 = 1 ∨ d.get 3 = 3))

instance (d : TfLiteIntArray) : Decidable (SpecInputRules d) := by
  unfold SpecInputRules; infer_instance

/-- The output rules in the words of the specification (section 4.2): rank 1; or rank 3;
or rank 2 or 4 with the first dimension 1. -/
def SpecOutputRules (d : TfLiteIntArray) : Prop :=
  d.size = 1 ∨ d.size = 3 ∨ ((d.size = 2 ∨ d.size = 4) ∧ d.get 0 = 1)

instance (d : TfLiteIntArray) : Decidable (SpecOutputRules d) := by
  unfold SpecOutputRules; infer_instance

/-! ## Basic facts -/

theorem toUnsigned_one : toUnsigned 1 = 1 := by decide

theorem toUnsigned_of_nonneg {d : Int} (h0 : 0 ≤ d) (h1 : d ≤ INT_MAX) : toUnsigned d = d := by
  unfold toUnsigned UINT_MODULUS
  unfold INT_MAX at h1
  omega

theorem toUnsigned_nonneg (d : Int) : 0 ≤ toUnsigned d := by
  unfold toUnsigned UINT_MODULUS
  omega

/-- The introspection of the input shape is the schema check, the allocation and the
input rank dispatch, in this order. -/
theorem libtf_get_input_data_hwc_eq (V : Int) (it : Interpreter) (out : Hwc) :
    libtf_get_input_data_hwc V it out =
      if it.version ≠ V then ⟨1, out, [Event.Report MSG_SCHEMA_VERSION]⟩
      else if it.AllocateTensors ≠ TfLiteStatus.kTfLiteOk then
        ⟨1, out, [Event.AllocateTensors, Event.Report MSG_ALLOCATE_TENSORS]⟩
      else match inputBranch it.input0 with
        | .ok s => ⟨0, s, [Event.AllocateTensors, Event.input 0]⟩
        | .error m => ⟨1, out, [Event.AllocateTensors, Event.input 0, Event.Report m]⟩ := by
  simp only [libtf_get_input_data_hwc, inputBranch, Id.run]
  split_ifs <;> rfl

/-- The introspection of the output shape is the schema check, the allocation and the
output rank dispatch, in this order. -/
theorem libtf_get_output_data_hwc_eq (V : Int) (it : Interpreter) (out : Hwc) :
    libtf_get_output_data_hwc V it out =
      if it.version ≠ V then ⟨1, out, [Event.Report MSG_SCHEMA_VERSION]⟩
      else if it.AllocateTensors ≠ TfLiteStatus.kTfLiteOk then
        ⟨1, out, [Event.AllocateTensors, Event.Report MSG_ALLOCATE_TENSORS]⟩
      else match outputBranch it.output0 with
        | .ok s => ⟨0, s, [Event.AllocateTensors, Event.output 0]⟩
        | .error m => ⟨1, out, [Event.AllocateTensors, Event.output 0, Event.Report m]⟩ := by
  simp only [libtf_get_output_data_hwc, outputBranch, Id.run]
  split_ifs <;> rfl

/-- The driver is the schema check, the allocation, the input rank dispatch with its
callback, the forward pass and the output rank dispatch with its callback, in this
order, each failure ending the call. -/
theorem libtf_invoke_eq (V : Int) (it : Interpreter) :
    libtf_invoke V it =
      if it.version ≠ V then ⟨1, [Event.Report MSG_SCHEMA_VERSION]⟩
      else if it.AllocateTensors ≠ TfLiteStatus.kTfLiteOk then
        ⟨1, [Event.AllocateTensors, Event.Report MSG_ALLOCATE_TENSORS]⟩
      else match inputBranch it.input0 with
        | .error m => ⟨1, [Event.AllocateTensors, Event.input 0, Event.Report m]⟩
        | .ok s =>
          if it.Invoke ≠ TfLiteStatus.kTfLiteOk then
            ⟨1, [Event.AllocateTensors, Event.input 0,
              Event.input_callback s.height s.width s.channels, Event.Invoke,
              Event.Report MSG_INVOKE]⟩
          else match outputBranch it.output0Invoked with
            | .error m => ⟨1, [Event.AllocateTensors, Event.input 0,
                Event.input_callback s.height s.width s.channels, Event.Invoke,
                Event.output 0, Event.Report m]⟩
            | .ok t => ⟨0, [Event.AllocateTensors, Event.input 0,
                Event.input_callback s.height s.width s.channels, Event.Invoke,
                Event.output 0, Event.output_callback t.height t.width t.channels]⟩ := by
  unfold libtf_invoke
  by_cases h1 : it.version = V
  swap
  · simp [Id.run, h1]
  by_cases h2 : it.AllocateTensors = TfLiteStatus.kTfLiteOk
  swap
  · simp [Id.run, h1, h2]
  simp only [Id.run, h1, h2, ne_eq, not_true_eq_false, ↓reduceIte, callbackArg, toUnsigned_one,
    List.nil_append, List.cons_append, List.singleton_append, pure, bind]
  cases hi : inputBranch it.input0 with
  | error m =>
    simp only [inputBranch] at hi
    split_ifs at hi <;> cases hi <;> simp [*]
  | ok s =>
    simp only [inputBranch] at hi
    by_cases h3 : it.Invoke = TfLiteStatus.kTfLiteOk
    swap
    · split_ifs at hi <;> cases hi <;> simp [*]
    cases ho : outputBranch it.output0Invoked with
    | error m =>
      simp only [outputBranch] at ho
      split_ifs at hi <;> cases hi <;> split_ifs at ho <;> cases ho <;> simp [*]
    | ok t =>
      simp only [outputBranch] at ho
      split_ifs at hi <;> cases hi <;> split_ifs at ho <;> cases ho <;> simp [*]

/-- A rejected input shape is reported with one of the three input-shape messages. -/
theorem inputBranch_error_mem {d : TfLiteIntArray} {m : String}
    (h : inputBranch d = .error m) : m ∈ inputShapeMessages := by
  simp only [inputBranch] at h
  split_ifs at h <;> cases h <;> simp [inputShapeMessages]

/-- A rejected output shape is reported with one of the two output-shape messages. -/
theorem outputBranch_error_mem {d : TfLiteIntArray} {m : String}
    (h : outputBranch d = .error m) : m ∈ outputShapeMessages := by
  simp only [outputBranch] at h
  split_ifs at h <;> cases h <;> simp [outputShapeMessages]

/-- The output rank dispatch rejects for the batch size exactly the ranks 2 and 4 with a
first dimension other than 1. -/
theorem outputBranch_batch_iff (d : TfLiteIntArray) :
    outputBranch d = .error MSG_OUTPUT_BATCH ↔ (d.size = 2 ∨ d.size = 4) ∧ d.get 0 ≠ 1 := by
  simp only [outputBranch]
  split_ifs <;> simp_all [MSG_OUTPUT_BATCH, MSG_OUTPUT_DIMS]

/-- The output rank dispatch rejects for the rank exactly the ranks outside 1..4. -/
theorem outputBranch_dims_iff (d : TfLiteIntArray) :
    outputBranch d = .error MSG_OUTPUT_DIMS ↔ ¬ (1 ≤ d.size ∧ d.size ≤ 4) := by
  simp only [outputBranch]
  split_ifs <;> simp_all [MSG_OUTPUT_BATCH, MSG_OUTPUT_DIMS]
  omega

/-- The entry read at an index below the size is one of the declared dimensions. -/
theorem TfLiteIntArray.get_mem (a : TfLiteIntArray) (i : Nat) (h : (i : Int) < a.size) :
    a.get i ∈ a.data := by
  have hi : i < a.data.length := by
    unfold TfLiteIntArray.size at h
    exact_mod_cast h
  unfold TfLiteIntArray.get
  rw [List.getD_eq_getElem _ _ hi]
  exact List.getElem_mem hi

/-- With positive declared dimensions, an entry read below the size is stored
unchanged, is positive and is one of the declared dimensions. -/
theorem toUnsigned_get (d : TfLiteIntArray) (hp : ∀ x ∈ d.data, PositiveDim x) (i : Nat)
    (hi : (i : Int) < d.size) :
    toUnsigned (d.get i) = d.get i ∧ 0 < d.get i ∧ d.get i ∈ d.data := by
  have hm := d.get_mem i hi
  have hpos := hp _ hm
  exact ⟨toUnsigned_of_nonneg (le_of_lt hpos.1) hpos.2, hpos.1, hm⟩

/-- Triples accepted by the input rank dispatch on positive dimensions are positive and
made of 1 and declared dimensions. -/
theorem inputBranch_positive {d : TfLiteIntArray} {s : Hwc} (h : inputBranch d = .ok s)
    (hp : ∀ x ∈ d.data, PositiveDim x) :
    (0 < s.height ∧ 0 < s.width ∧ 0 < s.channels) ∧
    (s.height ∈ 1 :: d.data ∧ s.width ∈ 1 :: d.data ∧ s.channels ∈ 1 :: d.data) := by
  simp only [inputBranch] at h
  split_ifs at h with h2 h3 hc h4 hb hc
  · cases h
    have a0 := toUnsigned_get d hp 0 (by omega)
    have a1 := toUnsigned_get d hp 1 (by omega)
    simp [a0, a1]
  · cases h
    have a0 := toUnsigned_get d hp 0 (by omega)
    have a1 := toUnsigned_get d hp 1 (by omega)
    have a2 := toUnsigned_get d hp 2 (by omega)
    simp [a0, a1, a2]
  · cases h
    have a1 := toUnsigned_get d hp 1 (by omega)
    have a2 := toUnsigned_get d hp 2 (by omega)
    have a3 := toUnsigned_get d hp 3 (by omega)
    simp [a1, a2, a3]

/-- Triples accepted by the output rank dispatch on positive dimensions are positive
and made of 1 and declared dimensions. -/
theorem outputBranch_positive {d : TfLiteIntArray} {s : Hwc} (h : outputBranch d = .ok s)
    (hp : ∀ x ∈ d.data, PositiveDim x) :
    (0 < s.height ∧ 0 < s.width ∧ 0 < s.channels) ∧
    (s.height ∈ 1 :: d.data ∧ s.width ∈ 1 :: d.data ∧ s.channels ∈ 1 :: d.data) := by
  simp only [outputBranch] at h
  split_ifs at h with h1 h2 hb h3 h4 hb
  · cases h
    have a0 := toUnsigned_get d hp 0 (by omega)
    simp [a0]
  · cases h
    have a1 := toUnsigned_get d hp 1 (by omega)
    simp [a1]
  · cases h
    have a0 := toUnsigned_get d hp 0 (by omega)
    have a1 := toUnsigned_get d hp 1 (by omega)
    have a2 := toUnsigned_get d hp 2 (by omega)
    simp [a0, a1, a2]
  · cases h
    have a1 := toUnsigned_get d hp 1 (by omega)
    have a2 := toUnsigned_get d hp 2 (by omega)
    have a3 := toUnsigned_get d hp 3 (by omega)
    simp [a1, a2, a3]

/-- The input rank dispatch accepts exactly the dims that satisfy the input rules. -/
theorem inputBranch_ok_iff (d : TfLiteIntArray) :
    (∃ s, inputBranch d = .ok s) ↔ SpecInputRules d := by
  simp only [inputBranch, SpecInputRules]
  split_ifs <;> simp_all
  all_goals tauto

/-- The output rank dispatch accepts exactly the dims that satisfy the output rules. -/
theorem outputBranch_ok_iff (d : TfLiteIntArray) :
    (∃ s, outputBranch d = .ok s) ↔ SpecOutputRules d := by
  simp only [outputBranch, SpecOutputRules]
  split_ifs <;> simp_all

/-- A triple accepted by the input rank dispatch has channel count 1 or 3. -/
theorem inputBranch_channels {d : TfLiteIntArray} {s : Hwc} (h : inputBranch d = .ok s) :
    s.channels = 1 ∨ s.channels = 3 := by
  simp only [inputBranch] at h
  split_ifs at h with h2 h3 hc h4 hb hc
  · cases h
    simp
  · cases h
    have : d.get 2 = 1 ∨ d.get 2 = 3 := by tauto
    rcases this with e | e <;> simp [e, toUnsigned, UINT_MODULUS]
  · cases h
    have : d.get 3 = 1 ∨ d.get 3 = 3 := by tauto
    rcases this with e | e <;> simp [e, toUnsigned, UINT_MODULUS]

/-! ## The claims -/

/-- Claim C1: when the schema version matches and allocation succeeds, and all declared
dimensions are positive `int` values, `libtf_get_input_data_hwc` returns 0 and stores
`(d0, d1, 1)` for input dims `[d0, d1]`, `(d0, d1, d2)` for `[d0, d1, d2]` with `d2` in
`{1, 3}`, and `(d1, d2, d3)` for `[d0, d1, d2, d3]` with `d0 = 1` and `d3` in `{1, 3}`. -/
theorem C1_input_canonicalization (V : Int) (it : Interpreter) (out : Hwc)
    (hv : it.version = V) (ha : it.AllocateTensors = TfLiteStatus.kTfLiteOk) :
    (∀ d0 d1 : Int, PositiveDim d0 → PositiveDim d1 → it.input0 = ⟨[d0, d1]⟩ →
      (libtf_get_input_data_hwc V it out).ret = 0 ∧
      (libtf_get_input_data_hwc V it out).out = ⟨d0, d1, 1⟩) ∧
    (∀ d0 d1 d2 : Int, PositiveDim d0 → PositiveDim d1 → PositiveDim d2 →
      it.input0 = ⟨[d0, d1, d2]⟩ → (d2 = 1 ∨ d2 = 3) →
      (libtf_get_input_data_hwc V it out).ret = 0 ∧
      (libtf_get_input_data_hwc V it out).out = ⟨d0, d1, d2⟩) ∧
    (∀ d0 d1 d2 d3 : Int, PositiveDim d0 → PositiveDim d1 → PositiveDim d2 → PositiveDim d3 →
      it.input0 = ⟨[d0, d1, d2, d3]⟩ → d0 = 1 → (d3 = 1 ∨ d3 = 3) →
      (libtf_get_input_data_hwc V it out).ret = 0 ∧
      (libtf_get_input_data_hwc V it out).out = ⟨d1, d2, d3⟩) := by
  rw [libtf_get_input_data_hwc_eq]
  refine ⟨?_, ?_, ?_⟩
  · intro d0 d1 h0 h1 hi
    have e0 := toUnsigned_of_nonneg (le_of_lt h0.1) h0.2
    have e1 := toUnsigned_of_nonneg (le_of_lt h1.1) h1.2
    simp [hv, ha, hi, inputBranch, TfLiteIntArray.size, TfLiteIntArray.get, e0, e1]
  · intro d0 d1 d2 h0 h1 h2 hi hc
    have e0 := toUnsigned_of_nonneg (le_of_lt h0.1) h0.2
    have e1 := toUnsigned_of_nonneg (le_of_lt h1.1) h1.2
    have e2 := toUnsigned_of_nonneg (le_of_lt h2.1) h2.2
    rcases hc with rfl | rfl <;>
      simp [hv, ha, hi, inputBranch, TfLiteIntArray.size, TfLiteIntArray.get, e0, e1, e2]
  · intro d0 d1 d2 d3 _ h1 h2 h3 hi hb hc
    have e1 := toUnsigned_of_nonneg (le_of_lt h1.1) h1.2
    have e2 := toUnsigned_of_nonneg (le_of_lt h2.1) h2.2
    have e3 := toUnsigned_of_nonneg (le_of_lt h3.1) h3.2
    subst hb
    rcases hc with rfl | rfl <;>
      simp [hv, ha, hi, inputBranch, TfLiteIntArray.size, TfLiteIntArray.get, e1, e2, e3]

/-- Claim C1, concrete instances: dims `[96, 96]`, `[32, 24, 3]` and `[1, 96, 96, 1]`. -/
theorem C1_input_canonicalization_witness :
    ((libtf_get_input_data_hwc 3
        (scenario 3 .kTfLiteOk [96, 96] .kTfLiteOk [1, 10]) ⟨0, 0, 0⟩).ret = 0 ∧
      (libtf_get_input_data_hwc 3
        (scenario 3 .kTfLiteOk [96, 96] .kTfLiteOk [1, 10]) ⟨0, 0, 0⟩).out = ⟨96, 96, 1⟩) ∧
    ((libtf_get_input_data_hwc 3
        (scenario 3 .kTfLiteOk [32, 24, 3] .kTfLiteOk [1, 10]) ⟨0, 0, 0⟩).ret = 0 ∧
      (libtf_get_input_data_hwc 3
        (scenario 3 .kTfLiteOk [32, 24, 3] .kTfLiteOk [1, 10]) ⟨0, 0, 0⟩).out = ⟨32, 24, 3⟩) ∧
    ((libtf_get_input_data_hwc 3
        (scenario 3 .kTfLiteOk [1, 96, 96, 1] .kTfLiteOk [1, 10]) ⟨0, 0, 0⟩).ret = 0 ∧
      (libtf_get_input_data_hwc 3
        (scenario 3 .kTfLiteOk [1, 96, 96, 1] .kTfLiteOk [1, 10]) ⟨0, 0, 0⟩).out = ⟨96, 96, 1⟩) :=
  ⟨(C1_input_canonicalization 3 (scenario 3 .kTfLiteOk [96, 96] .kTfLiteOk [1, 10]) ⟨0, 0, 0⟩
      rfl rfl).1 96 96 (by decide) (by decide) rfl,
   (C1_input_canonicalization 3 (scenario 3 .kTfLiteOk [32, 24, 3] .kTfLiteOk [1, 10]) ⟨0, 0, 0⟩
      rfl rfl).2.1 32 24 3 (by decide) (by decide) (by decide) rfl (Or.inr rfl),
   (C1_input_canonicalization 3 (scenario 3 .kTfLiteOk [1, 96, 96, 1] .kTfLiteOk [1, 10])
      ⟨0, 0, 0⟩ rfl rfl).2.2 1 96 96 1 (by decide) (by decide) (by decide) (by decide) rfl rfl
      (Or.inl rfl)⟩

/-- Claim C2, as stated, fails: output dims `[-1]` are accepted, and the channel count
stored through the `unsigned int` out-parameter is `4294967295`, not `-1`; likewise
output dims `[-2, -3, 4]` are accepted with `(4294967294, 4294967293, 4)`. -/
theorem C2_output_canonicalization_counterexample :
    ((libtf_get_output_data_hwc 3
        (scenario 3 .kTfLiteOk [1, 96, 96, 1] .kTfLiteOk [-1]) ⟨0, 0, 0⟩).ret = 0 ∧
      (libtf_get_output_data_hwc 3
        (scenario 3 .kTfLiteOk [1, 96, 96, 1] .kTfLiteOk [-1]) ⟨0, 0, 0⟩).out
          = ⟨1, 1, 4294967295⟩ ∧
      (libtf_get_output_data_hwc 3
        (scenario 3 .kTfLiteOk [1, 96, 96, 1] .kTfLiteOk [-1]) ⟨0, 0, 0⟩).out ≠ ⟨1, 1, -1⟩) ∧
    ((libtf_get_output_data_hwc 3
        (scenario 3 .kTfLiteOk [1, 96, 96, 1] .kTfLiteOk [-2, -3, 4]) ⟨0, 0, 0⟩).ret = 0 ∧
      (libtf_get_output_data_hwc 3
        (scenario 3 .kTfLiteOk [1, 96, 96, 1] .kTfLiteOk [-2, -3, 4]) ⟨0, 0, 0⟩).out
          = ⟨4294967294, 4294967293, 4⟩ ∧
      (libtf_get_output_data_hwc 3
        (scenario 3 .kTfLiteOk [1, 96, 96, 1] .kTfLiteOk [-2, -3, 4]) ⟨0, 0, 0⟩).out
          ≠ ⟨-2, -3, 4⟩) := by
  decide

/-- Claim C2, amended: when the schema version matches and allocation succeeds, and the
declared dimensions are non-negative `int` values, `libtf_get_output_data_hwc` returns 0
and stores `(1, 1, d0)` for output dims `[d0]`, `(1, 1, d1)` for `[1, d1]`,
`(d0, d1, d2)` for `[d0, d1, d2]` and `(d1, d2, d3)` for `[1, d1, d2, d3]`; the channel
count is not restricted otherwise. -/
theorem C2_output_canonicalization (V : Int) (it : Interpreter) (out : Hwc)
    (hv : it.version = V) (ha : it.AllocateTensors = TfLiteStatus.kTfLiteOk) :
    (∀ d0 : Int, NonNegativeDim d0 → it.output0 = ⟨[d0]⟩ →
      (libtf_get_output_data_hwc V it out).ret = 0 ∧
      (libtf_get_output_data_hwc V it out).out = ⟨1, 1, d0⟩) ∧
    (∀ d1 : Int, NonNegativeDim d1 → it.output0 = ⟨[1, d1]⟩ →
      (libtf_get_output_data_hwc V it out).ret = 0 ∧
      (libtf_get_output_data_hwc V it out).out = ⟨1, 1, d1⟩) ∧
    (∀ d0 d1 d2 : Int, NonNegativeDim d0 → NonNegativeDim d1 → NonNegativeDim d2 →
      it.output0 = ⟨[d0, d1, d2]⟩ →
      (libtf_get_output_data_hwc V it out).ret = 0 ∧
      (libtf_get_output_data_hwc V it out).out = ⟨d0, d1, d2⟩) ∧
    (∀ d1 d2 d3 : Int, NonNegativeDim d1 → NonNegativeDim d2 → NonNegativeDim d3 →
      it.output0 = ⟨[1, d1, d2, d3]⟩ →
      (libtf_get_output_data_hwc V it out).ret = 0 ∧
      (libtf_get_output_data_hwc V it out).out = ⟨d1, d2, d3⟩) := by
  rw [libtf_get_output_data_hwc_eq]
  refine ⟨?_, ?_, ?_, ?_⟩
  · intro d0 h0 ho
    have e0 := toUnsigned_of_nonneg h0.1 h0.2
    simp [hv, ha, ho, outputBranch, TfLiteIntArray.size, TfLiteIntArray.get, e0]
  · intro d1 h1 ho
    have e1 := toUnsigned_of_nonneg h1.1 h1.2
    simp [hv, ha, ho, outputBranch, TfLiteIntArray.size, TfLiteIntArray.get, e1]
  · intro d0 d1 d2 h0 h1 h2 ho
    have e0 := toUnsigned_of_nonneg h0.1 h0.2
    have e1 := toUnsigned_of_nonneg h1.1 h1.2
    have e2 := toUnsigned_of_nonneg h2.1 h2.2
    simp [hv, ha, ho, outputBranch, TfLiteIntArray.size, TfLiteIntArray.get, e0, e1, e2]
  · intro d1 d2 d3 h1 h2 h3 ho
    have e1 := toUnsigned_of_nonneg h1.1 h1.2
    have e2 := toUnsigned_of_nonneg h2.1 h2.2
    have e3 := toUnsigned_of_nonneg h3.1 h3.2
    simp [hv, ha, ho, outputBranch, TfLiteIntArray.size, TfLiteIntArray.get, e1, e2, e3]

/-- Claim C2 amended, concrete instances: output dims `[5]`, `[1, 10]`, `[7, 7, 64]`
and `[1, 4, 4, 0]`. -/
theorem C2_output_canonicalization_witness :
    (libtf_get_output_data_hwc 3
        (scenario 3 .kTfLiteOk [96, 96] .kTfLiteOk [5]) ⟨0, 0, 0⟩).out = ⟨1, 1, 5⟩ ∧
    (libtf_get_output_data_hwc 3
        (scenario 3 .kTfLiteOk [96, 96] .kTfLiteOk [1, 10]) ⟨0, 0, 0⟩).out = ⟨1, 1, 10⟩ ∧
    (libtf_get_output_data_hwc 3
        (scenario 3 .kTfLiteOk [96, 96] .kTfLiteOk [7, 7, 64]) ⟨0, 0, 0⟩).out = ⟨7, 7, 64⟩ ∧
    (libtf_get_output_data_hwc 3
        (scenario 3 .kTfLiteOk [96, 96] .kTfLiteOk [1, 4, 4, 0]) ⟨0, 0, 0⟩).out = ⟨4, 4, 0⟩ :=
  ⟨((C2_output_canonicalization 3 (scenario 3 .kTfLiteOk [96, 96] .kTfLiteOk [5]) ⟨0, 0, 0⟩
      rfl rfl).1 5 (by decide) rfl).2,
   ((C2_output_canonicalization 3 (scenario 3 .kTfLiteOk [96, 96] .kTfLiteOk [1, 10]) ⟨0, 0, 0⟩
      rfl rfl).2.1 10 (by decide) rfl).2,
   ((C2_output_canonicalization 3 (scenario 3 .kTfLiteOk [96, 96] .kTfLiteOk [7, 7, 64])
      ⟨0, 0, 0⟩ rfl rfl).2.2.1 7 7 64 (by decide) (by decide) (by decide) rfl).2,
   ((C2_output_canonicalization 3 (scenario 3 .kTfLiteOk [96, 96] .kTfLiteOk [1, 4, 4, 0])
      ⟨0, 0, 0⟩ rfl rfl).2.2.2 4 4 0 (by decide) (by decide) (by decide) rfl).2⟩

/-- Claim C3: when the model's schema version differs from the compiled-in one, each of
the three operations returns 1 after reporting the schema-version message and nothing
else happens: no allocation, no callback, no forward pass, and the out-parameters keep
their values, whatever the allocation status and the dims are. -/
theorem C3_schema_mismatch (V : Int) (it : Interpreter) (out : Hwc) (hv : it.version ≠ V) :
    libtf_get_input_data_hwc V it out = ⟨1, out, [Event.Report MSG_SCHEMA_VERSION]⟩ ∧
    libtf_get_output_data_hwc V it out = ⟨1, out, [Event.Report MSG_SCHEMA_VERSION]⟩ ∧
    libtf_invoke V it = ⟨1, [Event.Report MSG_SCHEMA_VERSION]⟩ ∧
    Event.AllocateTensors ∉ (libtf_get_input_data_hwc V it out).trace ∧
    Event.AllocateTensors ∉ (libtf_get_output_data_hwc V it out).trace ∧
    Event.AllocateTensors ∉ (libtf_invoke V it).trace ∧
    inputCallbackCount (libtf_invoke V it).trace = 0 ∧
    outputCallbackCount (libtf_invoke V it).trace = 0 ∧
    invokeCount (libtf_invoke V it).trace = 0 := by
  rw [libtf_get_input_data_hwc_eq, libtf_get_output_data_hwc_eq, libtf_invoke_eq]
  simp [hv, inputCallbackCount, outputCallbackCount, invokeCount, Event.isInputCallback,
    Event.isOutputCallback]

/-- Claim C3, concrete instance: a version 2 model against compiled-in version 3, with
an allocation that would succeed and acceptable dims. -/
theorem C3_schema_mismatch_witness :
    libtf_invoke 3 (scenario 2 .kTfLiteOk [1, 96, 96, 1] .kTfLiteOk [1, 10])
      = ⟨1, [Event.Report MSG_SCHEMA_VERSION]⟩ :=
  (C3_schema_mismatch 3 (scenario 2 .kTfLiteOk [1, 96, 96, 1] .kTfLiteOk [1, 10]) ⟨0, 0, 0⟩
    (by decide)).2.2.1

/-- Claim C4: in every call of `libtf_invoke`, if the input shape is rejected (one of the
input-shape messages is reported, or equivalently the input introspection fails on the
same interpreter) neither callback is called; if the forward pass fails or the output
shape is rejected, the output-read callback is not called. -/
theorem C4_no_callback_after_failure (V : Int) (it : Interpreter) :
    ((∃ msg ∈ inputShapeMessages, Event.Report msg ∈ (libtf_invoke V it).trace) →
      inputCallbackCount (libtf_invoke V it).trace = 0 ∧
      outputCallbackCount (libtf_invoke V it).trace = 0) ∧
    (∀ out, (libtf_get_input_data_hwc V it out).ret ≠ 0 →
      inputCallbackCount (libtf_invoke V it).trace = 0 ∧
      outputCallbackCount (libtf_invoke V it).trace = 0) ∧
    (Event.Report MSG_INVOKE ∈ (libtf_invoke V it).trace →
      outputCallbackCount (libtf_invoke V it).trace = 0) ∧
    (it.Invoke ≠ TfLiteStatus.kTfLiteOk →
      outputCallbackCount (libtf_invoke V it).trace = 0) ∧
    ((∃ msg ∈ outputShapeMessages, Event.Report msg ∈ (libtf_invoke V it).trace) →
      outputCallbackCount (libtf_invoke V it).trace = 0) ∧
    (∀ out, (libtf_get_output_data_hwc V it.afterInvoke out).ret ≠ 0 →
      outputCallbackCount (libtf_invoke V it).trace = 0) := by
  simp only [libtf_invoke_eq, libtf_get_input_data_hwc_eq, libtf_get_output_data_hwc_eq,
    Interpreter.afterInvoke]
  by_cases h1 : it.version = V
  swap
  · simp [h1, inputCallbackCount, outputCallbackCount, Event.isInputCallback,
      Event.isOutputCallback]
  by_cases h2 : it.AllocateTensors = TfLiteStatus.kTfLiteOk
  swap
  · simp [h1, h2, inputCallbackCount, outputCallbackCount, Event.isInputCallback,
      Event.isOutputCallback]
  cases hi : inputBranch it.input0 with
  | error m =>
    simp [h1, h2, inputCallbackCount, outputCallbackCount, Event.isInputCallback,
      Event.isOutputCallback]
  | ok s =>
    by_cases h3 : it.Invoke = TfLiteStatus.kTfLiteOk
    swap
    · simp [h1, h2, h3, inputCallbackCount, outputCallbackCount, Event.isInputCallback,
        Event.isOutputCallback, inputShapeMessages, MSG_INPUT_CHANNELS, MSG_INPUT_BATCH,
        MSG_INPUT_DIMS, MSG_INVOKE]
    cases ho : outputBranch it.output0Invoked with
    | error m =>
      have hm := outputBranch_error_mem ho
      simp only [outputShapeMessages, List.mem_cons, List.mem_singleton, List.not_mem_nil,
        or_false] at hm
      rcases hm with rfl | rfl <;>
        simp [h1, h2, h3, inputCallbackCount, outputCallbackCount, Event.isInputCallback,
          Event.isOutputCallback, inputShapeMessages, MSG_INPUT_CHANNELS, MSG_INPUT_BATCH,
          MSG_INPUT_DIMS, MSG_INVOKE, MSG_OUTPUT_BATCH, MSG_OUTPUT_DIMS]
    | ok t =>
      simp [h1, h2, h3, inputCallbackCount, outputCallbackCount, Event.isInputCallback,
        Event.isOutputCallback, inputShapeMessages, outputShapeMessages]

/-- Claim C4, concrete instances: input dims `[1, 64, 64, 4]` (channel count rejected),
a failing forward pass, and output dims `[2, 10]` (batch rejected). -/
theorem C4_no_callback_after_failure_witness :
    (inputCallbackCount
        (libtf_invoke 3 (scenario 3 .kTfLiteOk [1, 64, 64, 4] .kTfLiteOk [1, 10])).trace = 0 ∧
      outputCallbackCount
        (libtf_invoke 3 (scenario 3 .kTfLiteOk [1, 64, 64, 4] .kTfLiteOk [1, 10])).trace = 0) ∧
    outputCallbackCount
      (libtf_invoke 3 (scenario 3 .kTfLiteOk [1, 96, 96, 1] .kTfLiteError [1, 10])).trace = 0 ∧
    outputCallbackCount
      (libtf_invoke 3 (scenario 3 .kTfLiteOk [1, 96, 96, 1] .kTfLiteOk [2, 10])).trace = 0 :=
  ⟨(C4_no_callback_after_failure 3
      (scenario 3 .kTfLiteOk [1, 64, 64, 4] .kTfLiteOk [1, 10])).1
      ⟨MSG_INPUT_CHANNELS, by decide, by decide⟩,
   (C4_no_callback_after_failure 3
      (scenario 3 .kTfLiteOk [1, 96, 96, 1] .kTfLiteError [1, 10])).2.2.1 (by decide),
   (C4_no_callback_after_failure 3
      (scenario 3 .kTfLiteOk [1, 96, 96, 1] .kTfLiteOk [2, 10])).2.2.2.2.1
      ⟨MSG_OUTPUT_BATCH, by decide, by decide⟩⟩

/-- Claim C5: whenever `libtf_invoke` returns 0, its trace is exactly: allocation, fetch
of the input tensor, one input-fill callback with the triple that
`libtf_get_input_data_hwc` returns, one forward pass, fetch of the output tensor, one
output-read callback with the triple that `libtf_get_output_data_hwc` returns on the
dims read after the pass; both introspections succeed, and each callback and the
forward pass occur exactly once. -/
theorem C5_success_trace (V : Int) (it : Interpreter) (out : Hwc)
    (h : (libtf_invoke V it).ret = 0) :
    (libtf_get_input_data_hwc V it out).ret = 0 ∧
    (libtf_get_output_data_hwc V it.afterInvoke out).ret = 0 ∧
    (libtf_invoke V it).trace =
      [Event.AllocateTensors, Event.input 0,
        Event.input_callback (libtf_get_input_data_hwc V it out).out.height
          (libtf_get_input_data_hwc V it out).out.width
          (libtf_get_input_data_hwc V it out).out.channels,
        Event.Invoke, Event.output 0,
        Event.output_callback (libtf_get_output_data_hwc V it.afterInvoke out).out.height
          (libtf_get_output_data_hwc V it.afterInvoke out).out.width
          (libtf_get_output_data_hwc V it.afterInvoke out).out.channels] ∧
    inputCallbackCount (libtf_invoke V it).trace = 1 ∧
    invokeCount (libtf_invoke V it).trace = 1 ∧
    outputCallbackCount (libtf_invoke V it).trace = 1 := by
  simp only [libtf_invoke_eq, libtf_get_input_data_hwc_eq, libtf_get_output_data_hwc_eq,
    Interpreter.afterInvoke] at h ⊢
  by_cases h1 : it.version = V
  swap
  · simp [h1] at h
  by_cases h2 : it.AllocateTensors = TfLiteStatus.kTfLiteOk
  swap
  · simp [h1, h2] at h
  cases hi : inputBranch it.input0 with
  | error m => simp [h1, h2, hi] at h
  | ok s =>
    by_cases h3 : it.Invoke = TfLiteStatus.kTfLiteOk
    swap
    · simp [h1, h2, h3, hi] at h
    cases ho : outputBranch it.output0Invoked with
    | error m => simp [h1, h2, h3, hi, ho] at h
    | ok t =>
      simp [h1, h2, h3, inputCallbackCount, outputCallbackCount, invokeCount,
        Event.isInputCallback, Event.isOutputCallback]

/-- Claim C5, the end-to-end scenario: input dims `[1, 96, 96, 1]` and output dims
`[1, 10]` give the input callback `(96, 96, 1)`, the forward pass, the output callback
`(1, 1, 10)` and the return value 0. -/
theorem C5_success_trace_witness :
    (libtf_invoke 3 (scenario 3 .kTfLiteOk [1, 96, 96, 1] .kTfLiteOk [1, 10])).ret = 0 ∧
    (libtf_invoke 3 (scenario 3 .kTfLiteOk [1, 96, 96, 1] .kTfLiteOk [1, 10])).trace =
      [Event.AllocateTensors, Event.input 0, Event.input_callback 96 96 1, Event.Invoke,
        Event.output 0, Event.output_callback 1 1 10] :=
  ⟨by decide,
   (C5_success_trace 3 (scenario 3 .kTfLiteOk [1, 96, 96, 1] .kTfLiteOk [1, 10]) ⟨0, 0, 0⟩
      (by decide)).2.2.1⟩

/-- Claim C6: for a rank-4 input tensor whose first dimension is not 1 (schema version
matching, allocation succeeding), `libtf_get_input_data_hwc` and `libtf_invoke` both
return 1 after reporting the batch-size message, whatever the other dimensions are;
nothing is stored and no callback is called. -/
theorem C6_input_batch_rejected (V : Int) (it : Interpreter) (out : Hwc)
    (hv : it.version = V) (ha : it.AllocateTensors = TfLiteStatus.kTfLiteOk)
    (hr : it.input0.size = 4) (hb : it.input0.get 0 ≠ 1) :
    libtf_get_input_data_hwc V it out =
      ⟨1, out, [Event.AllocateTensors, Event.input 0, Event.Report MSG_INPUT_BATCH]⟩ ∧
    libtf_invoke V it =
      ⟨1, [Event.AllocateTensors, Event.input 0, Event.Report MSG_INPUT_BATCH]⟩ := by
  rw [libtf_get_input_data_hwc_eq, libtf_invoke_eq]
  simp [hv, ha, inputBranch, hr, hb]

/-- Claim C6, concrete instances: input dims `[2, 96, 96, 1]` (valid channel count) and
`[2, 64, 64, 4]` (invalid channel count) are both rejected for the batch size. -/
theorem C6_input_batch_rejected_witness :
    libtf_get_input_data_hwc 3 (scenario 3 .kTfLiteOk [2, 96, 96, 1] .kTfLiteOk [1, 10])
        ⟨0, 0, 0⟩ =
      ⟨1, ⟨0, 0, 0⟩, [Event.AllocateTensors, Event.input 0, Event.Report MSG_INPUT_BATCH]⟩ ∧
    libtf_invoke 3 (scenario 3 .kTfLiteOk [2, 64, 64, 4] .kTfLiteOk [1, 10]) =
      ⟨1, [Event.AllocateTensors, Event.input 0, Event.Report MSG_INPUT_BATCH]⟩ :=
  ⟨(C6_input_batch_rejected 3 (scenario 3 .kTfLiteOk [2, 96, 96, 1] .kTfLiteOk [1, 10])
      ⟨0, 0, 0⟩ rfl rfl (by decide) (by decide)).1,
   (C6_input_batch_rejected 3 (scenario 3 .kTfLiteOk [2, 64, 64, 4] .kTfLiteOk [1, 10])
      ⟨0, 0, 0⟩ rfl rfl (by decide) (by decide)).2⟩

/-- Claim C7, as stated, fails: the rank-4 input dims `[2, 64, 64, 4]` have a channel
count outside `{1, 3}`, yet both operations report the batch-size message and never the
channel-count message. -/
theorem C7_input_channels_rejected_counterexample :
    libtf_get_input_data_hwc 3 (scenario 3 .kTfLiteOk [2, 64, 64, 4] .kTfLiteOk [1, 10])
        ⟨0, 0, 0⟩ =
      ⟨1, ⟨0, 0, 0⟩, [Event.AllocateTensors, Event.input 0, Event.Report MSG_INPUT_BATCH]⟩ ∧
    ¬ (libtf_get_input_data_hwc 3 (scenario 3 .kTfLiteOk [2, 64, 64, 4] .kTfLiteOk [1, 10])
        ⟨0, 0, 0⟩).failsWith MSG_INPUT_CHANNELS ∧
    ¬ (libtf_invoke 3 (scenario 3 .kTfLiteOk [2, 64, 64, 4] .kTfLiteOk [1, 10])).failsWith
        MSG_INPUT_CHANNELS := by
  decide

/-- Claim C7, amended: for a rank-3 input tensor, or a rank-4 input tensor whose first
dimension is 1, with a last dimension outside `{1, 3}` (schema version matching,
allocation succeeding), `libtf_get_input_data_hwc` and `libtf_invoke` both return 1
after reporting the channel-count message, and no callback is called. -/
theorem C7_input_channels_rejected (V : Int) (it : Interpreter) (out : Hwc)
    (hv : it.version = V) (ha : it.AllocateTensors = TfLiteStatus.kTfLiteOk)
    (hc : (it.input0.size = 3 ∧ it.input0.get 2 ≠ 1 ∧ it.input0.get 2 ≠ 3) ∨
      (it.input0.size = 4 ∧ it.input0.get 0 = 1 ∧ it.input0.get 3 ≠ 1 ∧
        it.input0.get 3 ≠ 3)) :
    libtf_get_input_data_hwc V it out =
      ⟨1, out, [Event.AllocateTensors, Event.input 0, Event.Report MSG_INPUT_CHANNELS]⟩ ∧
    libtf_invoke V it =
      ⟨1, [Event.AllocateTensors, Event.input 0, Event.Report MSG_INPUT_CHANNELS]⟩ ∧
    inputCallbackCount (libtf_invoke V it).trace = 0 ∧
    outputCallbackCount (libtf_invoke V it).trace = 0 := by
  rw [libtf_get_input_data_hwc_eq, libtf_invoke_eq]
  rcases hc with ⟨hr, h1, h3⟩ | ⟨hr, hb, h1, h3⟩ <;>
    simp [hv, ha, inputBranch, *, inputCallbackCount, outputCallbackCount,
      Event.isInputCallback, Event.isOutputCallback]

/-- Claim C7 amended, the scenario of the specification: input dims `[1, 64, 64, 4]`. -/
theorem C7_input_channels_rejected_witness :
    libtf_get_input_data_hwc 3 (scenario 3 .kTfLiteOk [1, 64, 64, 4] .kTfLiteOk [1, 10])
        ⟨0, 0, 0⟩ =
      ⟨1, ⟨0, 0, 0⟩, [Event.AllocateTensors, Event.input 0, Event.Report MSG_INPUT_CHANNELS]⟩ ∧
    libtf_invoke 3 (scenario 3 .kTfLiteOk [1, 64, 64, 4] .kTfLiteOk [1, 10]) =
      ⟨1, [Event.AllocateTensors, Event.input 0, Event.Report MSG_INPUT_CHANNELS]⟩ :=
  ⟨(C7_input_channels_rejected 3 (scenario 3 .kTfLiteOk [1, 64, 64, 4] .kTfLiteOk [1, 10])
      ⟨0, 0, 0⟩ rfl rfl (by decide)).1,
   (C7_input_channels_rejected 3 (scenario 3 .kTfLiteOk [1, 64, 64, 4] .kTfLiteOk [1, 10])
      ⟨0, 0, 0⟩ rfl rfl (by decide)).2.1⟩

/-- Claim C8: for an input tensor whose rank is none of 2, 3, 4 (schema version
matching, allocation succeeding), `libtf_get_input_data_hwc` and `libtf_invoke` both
return 1 after reporting the unsupported-dimensions message, whatever the dimension
values are. -/
theorem C8_input_rank_rejected (V : Int) (it : Interpreter) (out : Hwc)
    (hv : it.version = V) (ha : it.AllocateTensors = TfLiteStatus.kTfLiteOk)
    (h2 : it.input0.size ≠ 2) (h3 : it.input0.size ≠ 3) (h4 : it.input0.size ≠ 4) :
    libtf_get_input_data_hwc V it out =
      ⟨1, out, [Event.AllocateTensors, Event.input 0, Event.Report MSG_INPUT_DIMS]⟩ ∧
    libtf_invoke V it =
      ⟨1, [Event.AllocateTensors, Event.input 0, Event.Report MSG_INPUT_DIMS]⟩ := by
  rw [libtf_get_input_data_hwc_eq, libtf_invoke_eq]
  simp [hv, ha, inputBranch, h2, h3, h4]

/-- Claim C8, concrete instances: input ranks 0, 1 and 5. -/
theorem C8_input_rank_rejected_witness :
    libtf_invoke 3 (scenario 3 .kTfLiteOk [] .kTfLiteOk [1, 10]) =
      ⟨1, [Event.AllocateTensors, Event.input 0, Event.Report MSG_INPUT_DIMS]⟩ ∧
    libtf_get_input_data_hwc 3 (scenario 3 .kTfLiteOk [784] .kTfLiteOk [1, 10]) ⟨0, 0, 0⟩ =
      ⟨1, ⟨0, 0, 0⟩, [Event.AllocateTensors, Event.input 0, Event.Report MSG_INPUT_DIMS]⟩ ∧
    libtf_invoke 3 (scenario 3 .kTfLiteOk [1, 1, 96, 96, 1] .kTfLiteOk [1, 10]) =
      ⟨1, [Event.AllocateTensors, Event.input 0, Event.Report MSG_INPUT_DIMS]⟩ :=
  ⟨(C8_input_rank_rejected 3 (scenario 3 .kTfLiteOk [] .kTfLiteOk [1, 10]) ⟨0, 0, 0⟩
      rfl rfl (by decide) (by decide) (by decide)).2,
   (C8_input_rank_rejected 3 (scenario 3 .kTfLiteOk [784] .kTfLiteOk [1, 10]) ⟨0, 0, 0⟩
      rfl rfl (by decide) (by decide) (by decide)).1,
   (C8_input_rank_rejected 3 (scenario 3 .kTfLiteOk [1, 1, 96, 96, 1] .kTfLiteOk [1, 10])
      ⟨0, 0, 0⟩ rfl rfl (by decide) (by decide) (by decide)).2⟩

/-- Claim C9: output canonicalization, in `libtf_get_output_data_hwc` (schema version
matching, allocation succeeding) and in `libtf_invoke` (input shape accepted and forward
pass succeeding as well), fails with the batch-size message if and only if the rank is 2
or 4 and the first dimension is not 1, fails with the unsupported-dimensions message if
and only if the rank is outside 1..4, fails in no other way (in particular never with
the channel-count message), and accepts every rank-1 output. -/
theorem C9_output_rejections (V : Int) (it : Interpreter) (out : Hwc)
    (hv : it.version = V) (ha : it.AllocateTensors = TfLiteStatus.kTfLiteOk) :
    (((libtf_get_output_data_hwc V it out).failsWith MSG_OUTPUT_BATCH ↔
        (it.output0.size = 2 ∨ it.output0.size = 4) ∧ it.output0.get 0 ≠ 1) ∧
      ((libtf_get_output_data_hwc V it out).failsWith MSG_OUTPUT_DIMS ↔
        ¬ (1 ≤ it.output0.size ∧ it.output0.size ≤ 4)) ∧
      (∀ msg, (libtf_get_output_data_hwc V it out).failsWith msg →
        msg = MSG_OUTPUT_BATCH ∨ msg = MSG_OUTPUT_DIMS) ∧
      ¬ (libtf_get_output_data_hwc V it out).failsWith MSG_INPUT_CHANNELS ∧
      (it.output0.size = 1 → (libtf_get_output_data_hwc V it out).ret = 0)) ∧
    ((libtf_get_input_data_hwc V it out).ret = 0 → it.Invoke = TfLiteStatus.kTfLiteOk →
      ((libtf_invoke V it).failsWith MSG_OUTPUT_BATCH ↔
        (it.output0Invoked.size = 2 ∨ it.output0Invoked.size = 4) ∧
          it.output0Invoked.get 0 ≠ 1) ∧
      ((libtf_invoke V it).failsWith MSG_OUTPUT_DIMS ↔
        ¬ (1 ≤ it.output0Invoked.size ∧ it.output0Invoked.size ≤ 4)) ∧
      (∀ msg, (libtf_invoke V it).failsWith msg →
        msg = MSG_OUTPUT_BATCH ∨ msg = MSG_OUTPUT_DIMS) ∧
      ¬ (libtf_invoke V it).failsWith MSG_INPUT_CHANNELS ∧
      (it.output0Invoked.size = 1 → (libtf_invoke V it).ret = 0)) := by
  constructor
  · have hb := outputBranch_batch_iff it.output0
    have hd := outputBranch_dims_iff it.output0
    simp only [ShapeResult.failsWith, libtf_get_output_data_hwc_eq]
    cases ho : outputBranch it.output0 with
    | ok t =>
      rw [ho] at hb hd
      simp only [reduceCtorEq, false_iff] at hb hd
      refine ⟨?_, ?_, ?_, ?_, ?_⟩ <;> simp [hv, ha, hb, hd]
    | error m =>
      have hm := outputBranch_error_mem ho
      simp only [outputShapeMessages, List.mem_cons, List.mem_singleton, List.not_mem_nil,
        or_false] at hm
      have h1 : it.output0.size ≠ 1 := by
        intro h
        simp [outputBranch, h] at ho
      rcases hm with rfl | rfl
      · refine ⟨?_, ?_, ?_, ?_, ?_⟩ <;>
          simp_all [MSG_OUTPUT_BATCH, MSG_OUTPUT_DIMS, MSG_INPUT_CHANNELS]
      · refine ⟨?_, ?_, ?_, ?_, ?_⟩ <;>
          simp_all [MSG_OUTPUT_BATCH, MSG_OUTPUT_DIMS, MSG_INPUT_CHANNELS]
  · intro hin h3
    have hb := outputBranch_batch_iff it.output0Invoked
    have hd := outputBranch_dims_iff it.output0Invoked
    rw [libtf_get_input_data_hwc_eq] at hin
    simp only [InvokeResult.failsWith, libtf_invoke_eq]
    cases hi : inputBranch it.input0 with
    | error m => simp [hv, ha, hi] at hin
    | ok s =>
      cases ho : outputBranch it.output0Invoked with
      | ok t =>
        rw [ho] at hb hd
        simp only [reduceCtorEq, false_iff] at hb hd
        refine ⟨?_, ?_, ?_, ?_, ?_⟩ <;> simp [hv, ha, h3, hb, hd]
      | error m =>
        have hm := outputBranch_error_mem ho
        simp only [outputShapeMessages, List.mem_cons, List.mem_singleton, List.not_mem_nil,
          or_false] at hm
        have h1 : it.output0Invoked.size ≠ 1 := by
          intro h
          simp [outputBranch, h] at ho
        rcases hm with rfl | rfl
        · refine ⟨?_, ?_, ?_, ?_, ?_⟩ <;>
            simp_all [MSG_OUTPUT_BATCH, MSG_OUTPUT_DIMS, MSG_INPUT_CHANNELS]
        · refine ⟨?_, ?_, ?_, ?_, ?_⟩ <;>
            simp_all [MSG_OUTPUT_BATCH, MSG_OUTPUT_DIMS, MSG_INPUT_CHANNELS]

/-- Claim C9, concrete instances: output dims `[2, 10]` are rejected for the batch size
by the introspection, output dims `[1, 1, 1, 1, 10]` are rejected for the rank by the
driver, and the rank-1 output dims `[1000]` are accepted. -/
theorem C9_output_rejections_witness :
    (libtf_get_output_data_hwc 3 (scenario 3 .kTfLiteOk [96, 96] .kTfLiteOk [2, 10])
      ⟨0, 0, 0⟩).failsWith MSG_OUTPUT_BATCH ∧
    (libtf_invoke 3 (scenario 3 .kTfLiteOk [96, 96] .kTfLiteOk [1, 1, 1, 1, 10])).failsWith
      MSG_OUTPUT_DIMS ∧
    (libtf_get_output_data_hwc 3 (scenario 3 .kTfLiteOk [96, 96] .kTfLiteOk [1000])
      ⟨0, 0, 0⟩).ret = 0 :=
  ⟨((C9_output_rejections 3 (scenario 3 .kTfLiteOk [96, 96] .kTfLiteOk [2, 10]) ⟨0, 0, 0⟩
      rfl rfl).1.1).2 (by decide),
   (((C9_output_rejections 3 (scenario 3 .kTfLiteOk [96, 96] .kTfLiteOk [1, 1, 1, 1, 10])
      ⟨0, 0, 0⟩ rfl rfl).2 (by decide) rfl).2.1).2 (by decide),
   (C9_output_rejections 3 (scenario 3 .kTfLiteOk [96, 96] .kTfLiteOk [1000]) ⟨0, 0, 0⟩
      rfl rfl).1.2.2.2.2 (by decide)⟩

/-- Claim C10, as stated, fails: input dims `[0, 5]` are accepted with height 0, input
dims `[-1, 5]` are accepted with the wrapped height 4294967295, and output dims `[0]`
are accepted with channel count 0. -/
theorem C10_positive_triple_counterexample :
    ((libtf_get_input_data_hwc 3 (scenario 3 .kTfLiteOk [0, 5] .kTfLiteOk [0])
        ⟨7, 7, 7⟩).ret = 0 ∧
      ¬ 0 < (libtf_get_input_data_hwc 3 (scenario 3 .kTfLiteOk [0, 5] .kTfLiteOk [0])
        ⟨7, 7, 7⟩).out.height) ∧
    ((libtf_get_input_data_hwc 3 (scenario 3 .kTfLiteOk [-1, 5] .kTfLiteOk [0])
        ⟨7, 7, 7⟩).ret = 0 ∧
      (libtf_get_input_data_hwc 3 (scenario 3 .kTfLiteOk [-1, 5] .kTfLiteOk [0])
        ⟨7, 7, 7⟩).out.height = 4294967295) ∧
    ((libtf_get_output_data_hwc 3 (scenario 3 .kTfLiteOk [0, 5] .kTfLiteOk [0])
        ⟨7, 7, 7⟩).ret = 0 ∧
      ¬ 0 < (libtf_get_output_data_hwc 3 (scenario 3 .kTfLiteOk [0, 5] .kTfLiteOk [0])
        ⟨7, 7, 7⟩).out.channels) := by
  decide

/-- Claim C10, amended: for every model whose declared dimensions of the tensor in
question are all positive `int` values, whenever `libtf_get_input_data_hwc` or
`libtf_get_output_data_hwc` returns 0, the stored height, width and channels are
strictly positive, and each is 1 or one of the declared dimensions. -/
theorem C10_positive_triple (V : Int) (it : Interpreter) (out : Hwc) :
    ((∀ d ∈ it.input0.data, PositiveDim d) →
      (libtf_get_input_data_hwc V it out).ret = 0 →
        (0 < (libtf_get_input_data_hwc V it out).out.height ∧
          0 < (libtf_get_input_data_hwc V it out).out.width ∧
          0 < (libtf_get_input_data_hwc V it out).out.channels) ∧
        ((libtf_get_input_data_hwc V it out).out.height ∈ 1 :: it.input0.data ∧
          (libtf_get_input_data_hwc V it out).out.width ∈ 1 :: it.input0.data ∧
          (libtf_get_input_data_hwc V it out).out.channels ∈ 1 :: it.input0.data)) ∧
    ((∀ d ∈ it.output0.data, PositiveDim d) →
      (libtf_get_output_data_hwc V it out).ret = 0 →
        (0 < (libtf_get_output_data_hwc V it out).out.height ∧
          0 < (libtf_get_output_data_hwc V it out).out.width ∧
          0 < (libtf_get_output_data_hwc V it out).out.channels) ∧
        ((libtf_get_output_data_hwc V it out).out.height ∈ 1 :: it.output0.data ∧
          (libtf_get_output_data_hwc V it out).out.width ∈ 1 :: it.output0.data ∧
          (libtf_get_output_data_hwc V it out).out.channels ∈ 1 :: it.output0.data)) := by
  constructor
  · intro hp
    rw [libtf_get_input_data_hwc_eq]
    by_cases h1 : it.version = V
    swap
    · simp [h1]
    by_cases h2 : it.AllocateTensors = TfLiteStatus.kTfLiteOk
    swap
    · simp [h1, h2]
    cases hi : inputBranch it.input0 with
    | error m => simp [h1, h2]
    | ok s =>
      intro _
      simpa [h1, h2] using inputBranch_positive hi hp
  · intro hp
    rw [libtf_get_output_data_hwc_eq]
    by_cases h1 : it.version = V
    swap
    · simp [h1]
    by_cases h2 : it.AllocateTensors = TfLiteStatus.kTfLiteOk
    swap
    · simp [h1, h2]
    cases ho : outputBranch it.output0 with
    | error m => simp [h1, h2]
    | ok s =>
      intro _
      simpa [h1, h2] using outputBranch_positive ho hp

/-- Claim C10 amended, concrete instances: input dims `[1, 96, 96, 3]` and output dims
`[1, 10]`. -/
theorem C10_positive_triple_witness :
    (0 < (libtf_get_input_data_hwc 3 (scenario 3 .kTfLiteOk [1, 96, 96, 3] .kTfLiteOk [1, 10])
        ⟨0, 0, 0⟩).out.height ∧
      0 < (libtf_get_input_data_hwc 3 (scenario 3 .kTfLiteOk [1, 96, 96, 3] .kTfLiteOk [1, 10])
        ⟨0, 0, 0⟩).out.width ∧
      0 < (libtf_get_input_data_hwc 3 (scenario 3 .kTfLiteOk [1, 96, 96, 3] .kTfLiteOk [1, 10])
        ⟨0, 0, 0⟩).out.channels) ∧
    (0 < (libtf_get_output_data_hwc 3 (scenario 3 .kTfLiteOk [1, 96, 96, 3] .kTfLiteOk [1, 10])
        ⟨0, 0, 0⟩).out.height ∧
      0 < (libtf_get_output_data_hwc 3 (scenario 3 .kTfLiteOk [1, 96, 96, 3] .kTfLiteOk [1, 10])
        ⟨0, 0, 0⟩).out.width ∧
      0 < (libtf_get_output_data_hwc 3 (scenario 3 .kTfLiteOk [1, 96, 96, 3] .kTfLiteOk [1, 10])
        ⟨0, 0, 0⟩).out.channels) :=
  ⟨((C10_positive_triple 3 (scenario 3 .kTfLiteOk [1, 96, 96, 3] .kTfLiteOk [1, 10])
      ⟨0, 0, 0⟩).1 (by decide) (by decide)).1,
   ((C10_positive_triple 3 (scenario 3 .kTfLiteOk [1, 96, 96, 3] .kTfLiteOk [1, 10])
      ⟨0, 0, 0⟩).2 (by decide) (by decide)).1⟩

/-- Claim C11: whenever input canonicalization succeeds, that is `libtf_get_input_data_hwc`
returns 0, or `libtf_invoke` calls the input-fill callback, the channels component (the
stored out-parameter, respectively the callback argument) is 1 or 3. -/
theorem C11_input_channels_one_or_three (V : Int) (it : Interpreter) (out : Hwc) :
    ((libtf_get_input_data_hwc V it out).ret = 0 →
      (libtf_get_input_data_hwc V it out).out.channels = 1 ∨
      (libtf_get_input_data_hwc V it out).out.channels = 3) ∧
    (∀ h w c, Event.input_callback h w c ∈ (libtf_invoke V it).trace → c = 1 ∨ c = 3) := by
  rw [libtf_get_input_data_hwc_eq, libtf_invoke_eq]
  by_cases h1 : it.version = V
  swap
  · simp [h1]
  by_cases h2 : it.AllocateTensors = TfLiteStatus.kTfLiteOk
  swap
  · simp [h1, h2]
  cases hi : inputBranch it.input0 with
  | error m => simp [h1, h2]
  | ok s =>
    have hc := inputBranch_channels hi
    refine ⟨by simpa [h1, h2] using hc, ?_⟩
    intro h w c hmem
    have hcs : c = s.channels := by
      by_cases h3 : it.Invoke = TfLiteStatus.kTfLiteOk
      · cases ho : outputBranch it.output0Invoked <;> simp [h1, h2, h3, ho] at hmem <;>
          exact hmem.2.2
      · simp [h1, h2, h3] at hmem
        exact hmem.2.2
    rw [hcs]
    exact hc

/-- Claim C11, concrete instances: input dims `[96, 96]` store channels 1, and with input
dims `[1, 32, 32, 3]` the callback of `libtf_invoke` receives channels 3. -/
theorem C11_input_channels_one_or_three_witness :
    ((libtf_get_input_data_hwc 3 (scenario 3 .kTfLiteOk [96, 96] .kTfLiteOk [1, 10])
        ⟨0, 0, 0⟩).out.channels = 1 ∨
      (libtf_get_input_data_hwc 3 (scenario 3 .kTfLiteOk [96, 96] .kTfLiteOk [1, 10])
        ⟨0, 0, 0⟩).out.channels = 3) ∧
    (Event.input_callback 32 32 3 ∈
        (libtf_invoke 3 (scenario 3 .kTfLiteOk [1, 32, 32, 3] .kTfLiteOk [1, 10])).trace ∧
      ((3 : Int) = 1 ∨ (3 : Int) = 3)) :=
  ⟨(C11_input_channels_one_or_three 3 (scenario 3 .kTfLiteOk [96, 96] .kTfLiteOk [1, 10])
      ⟨0, 0, 0⟩).1 (by decide),
   ⟨by decide,
    (C11_input_channels_one_or_three 3
      (scenario 3 .kTfLiteOk [1, 32, 32, 3] .kTfLiteOk [1, 10]) ⟨0, 0, 0⟩).2 32 32 3
      (by decide)⟩⟩

/-- Claim C12, as stated, fails: a call of `libtf_invoke` that fails for a schema
mismatch and one that fails for an allocation failure report messages of different
kinds, yet return the same value 1; likewise for `libtf_get_input_data_hwc` with a
rejected rank and a rejected channel count. -/
theorem C12_distinct_return_values_counterexample :
    (errorKind MSG_SCHEMA_VERSION ≠ errorKind MSG_ALLOCATE_TENSORS ∧
      (libtf_invoke 3 (scenario 2 .kTfLiteOk [1, 96, 96, 1] .kTfLiteOk [1, 10])).failsWith
        MSG_SCHEMA_VERSION ∧
      (libtf_invoke 3 (scenario 3 .kTfLiteError [1, 96, 96, 1] .kTfLiteOk [1, 10])).failsWith
        MSG_ALLOCATE_TENSORS ∧
      (libtf_invoke 3 (scenario 2 .kTfLiteOk [1, 96, 96, 1] .kTfLiteOk [1, 10])).ret =
        (libtf_invoke 3 (scenario 3 .kTfLiteError [1, 96, 96, 1] .kTfLiteOk [1, 10])).ret) ∧
    (errorKind MSG_INPUT_DIMS ≠ errorKind MSG_INPUT_CHANNELS ∧
      (libtf_get_input_data_hwc 3 (scenario 3 .kTfLiteOk [784] .kTfLiteOk [1, 10])
        ⟨0, 0, 0⟩).failsWith MSG_INPUT_DIMS ∧
      (libtf_get_input_data_hwc 3 (scenario 3 .kTfLiteOk [1, 64, 64, 4] .kTfLiteOk [1, 10])
        ⟨0, 0, 0⟩).failsWith MSG_INPUT_CHANNELS ∧
      (libtf_get_input_data_hwc 3 (scenario 3 .kTfLiteOk [784] .kTfLiteOk [1, 10])
        ⟨0, 0, 0⟩).ret =
        (libtf_get_input_data_hwc 3 (scenario 3 .kTfLiteOk [1, 64, 64, 4] .kTfLiteOk [1, 10])
          ⟨0, 0, 0⟩).ret) := by
  decide

/-- Claim C12, amended: every failing call of the three operations returns the same
value 1, whatever the reason, so the return value does not tell the kinds apart; a
failing call passes exactly one message to the error reporter and a successful call
none; that message stands for one of the six kinds of the taxonomy, each of the eight
messages of the code stands for the kind listed, and messages that stand for different
kinds are different texts. -/
theorem C12_failure_signal (V : Int) (it : Interpreter) (out : Hwc) :
    ((libtf_get_input_data_hwc V it out).ret ≠ 0 →
      (libtf_get_input_data_hwc V it out).ret = 1 ∧
      ∃ m, reports (libtf_get_input_data_hwc V it out).trace = [m] ∧
        (errorKind m).isSome = true) ∧
    ((libtf_get_output_data_hwc V it out).ret ≠ 0 →
      (libtf_get_output_data_hwc V it out).ret = 1 ∧
      ∃ m, reports (libtf_get_output_data_hwc V it out).trace = [m] ∧
        (errorKind m).isSome = true) ∧
    ((libtf_invoke V it).ret ≠ 0 →
      (libtf_invoke V it).ret = 1 ∧
      ∃ m, reports (libtf_invoke V it).trace = [m] ∧ (errorKind m).isSome = true) ∧
    ((libtf_get_input_data_hwc V it out).ret = 0 →
      reports (libtf_get_input_data_hwc V it out).trace = []) ∧
    ((libtf_get_output_data_hwc V it out).ret = 0 →
      reports (libtf_get_output_data_hwc V it out).trace = []) ∧
    ((libtf_invoke V it).ret = 0 → reports (libtf_invoke V it).trace = []) ∧
    (errorKind MSG_SCHEMA_VERSION = some ErrorKind.SchemaVersionMismatch ∧
      errorKind MSG_ALLOCATE_TENSORS = some ErrorKind.AllocationFailure ∧
      errorKind MSG_INPUT_DIMS = some ErrorKind.UnsupportedRank ∧
      errorKind MSG_OUTPUT_DIMS = some ErrorKind.UnsupportedRank ∧
      errorKind MSG_INPUT_BATCH = some ErrorKind.InvalidBatchSize ∧
      errorKind MSG_OUTPUT_BATCH = some ErrorKind.InvalidBatchSize ∧
      errorKind MSG_INPUT_CHANNELS = some ErrorKind.InvalidChannelCount ∧
      errorKind MSG_INVOKE = some ErrorKind.InferenceFailure) ∧
    (∀ m m' : String, errorKind m ≠ errorKind m' → m ≠ m') := by
  have hin : ∀ {m}, m ∈ inputShapeMessages → (errorKind m).isSome = true := by
    intro m hm
    simp only [inputShapeMessages, List.mem_cons, List.mem_singleton, List.not_mem_nil,
      or_false] at hm
    rcases hm with rfl | rfl | rfl <;> decide
  have hout : ∀ {m}, m ∈ outputShapeMessages → (errorKind m).isSome = true := by
    intro m hm
    simp only [outputShapeMessages, List.mem_cons, List.mem_singleton, List.not_mem_nil,
      or_false] at hm
    rcases hm with rfl | rfl <;> decide
  have hs : (errorKind MSG_SCHEMA_VERSION).isSome = true := by decide
  have hal : (errorKind MSG_ALLOCATE_TENSORS).isSome = true := by decide
  have hiv : (errorKind MSG_INVOKE).isSome = true := by decide
  rw [libtf_get_input_data_hwc_eq, libtf_get_output_data_hwc_eq, libtf_invoke_eq]
  refine ⟨?_, ?_, ?_, ?_, ?_, ?_, by decide, fun m m' hk e => hk (by rw [e])⟩
  all_goals
    by_cases h1 : it.version = V
    swap
    · simp [h1, reports, hs]
    by_cases h2 : it.AllocateTensors = TfLiteStatus.kTfLiteOk
    swap
    · simp [h1, h2, reports, hal]
  · cases hi : inputBranch it.input0 with
    | error m => simp [h1, h2, reports, hin (inputBranch_error_mem hi)]
    | ok s => simp [h1, h2, reports]
  · cases ho : outputBranch it.output0 with
    | error m => simp [h1, h2, reports, hout (outputBranch_error_mem ho)]
    | ok s => simp [h1, h2, reports]
  · cases hi : inputBranch it.input0 with
    | error m => simp [h1, h2, reports, hin (inputBranch_error_mem hi)]
    | ok s =>
      by_cases h3 : it.Invoke = TfLiteStatus.kTfLiteOk
      swap
      · simp [h1, h2, h3, reports, hiv]
      cases ho : outputBranch it.output0Invoked with
      | error m => simp [h1, h2, h3, reports, hout (outputBranch_error_mem ho)]
      | ok t => simp [h1, h2, h3, reports]
  · cases hi : inputBranch it.input0 with
    | error m => simp [h1, h2, reports]
    | ok s => simp [h1, h2, reports]
  · cases ho : outputBranch it.output0 with
    | error m => simp [h1, h2, reports]
    | ok s => simp [h1, h2, reports]
  · cases hi : inputBranch it.input0 with
    | error m => simp [h1, h2, reports]
    | ok s =>
      by_cases h3 : it.Invoke = TfLiteStatus.kTfLiteOk
      swap
      · simp [h1, h2, h3, reports]
      cases ho : outputBranch it.output0Invoked with
      | error m => simp [h1, h2, h3, reports]
      | ok t => simp [h1, h2, h3, reports]

/-- Claim C12 amended, concrete instances: an allocation failure in
`libtf_get_output_data_hwc` and a failing forward pass in `libtf_invoke` both return 1
and report one message each. -/
theorem C12_failure_signal_witness :
    ((libtf_get_output_data_hwc 3 (scenario 3 .kTfLiteError [96, 96] .kTfLiteOk [1, 10])
        ⟨0, 0, 0⟩).ret = 1 ∧
      ∃ m, reports (libtf_get_output_data_hwc 3
          (scenario 3 .kTfLiteError [96, 96] .kTfLiteOk [1, 10]) ⟨0, 0, 0⟩).trace = [m] ∧
        (errorKind m).isSome = true) ∧
    ((libtf_invoke 3 (scenario 3 .kTfLiteOk [96, 96] .kTfLiteError [1, 10])).ret = 1 ∧
      ∃ m, reports (libtf_invoke 3
          (scenario 3 .kTfLiteOk [96, 96] .kTfLiteError [1, 10])).trace = [m] ∧
        (errorKind m).isSome = true) :=
  ⟨(C12_failure_signal 3 (scenario 3 .kTfLiteError [96, 96] .kTfLiteOk [1, 10])
      ⟨0, 0, 0⟩).2.1 (by decide),
   (C12_failure_signal 3 (scenario 3 .kTfLiteOk [96, 96] .kTfLiteError [1, 10])
      ⟨0, 0, 0⟩).2.2.1 (by decide)⟩

/-- Claim C13: on the same interpreter, `libtf_get_input_data_hwc` returns 0 if and only
if `libtf_invoke` calls the input-fill callback (then exactly once); every call of the
callback receives exactly the triple that the introspection stores; and when the
introspection fails, `libtf_invoke` fails with the same return value and the same
trace, hence the same message, without calling a callback. -/
theorem C13_input_introspection_agrees (V : Int) (it : Interpreter) (out : Hwc) :
    ((libtf_get_input_data_hwc V it out).ret = 0 ↔
      inputCallbackCount (libtf_invoke V it).trace = 1) ∧
    ((libtf_get_input_data_hwc V it out).ret = 0 ↔
      ∃ h w c, Event.input_callback h w c ∈ (libtf_invoke V it).trace) ∧
    (∀ h w c, Event.input_callback h w c ∈ (libtf_invoke V it).trace →
      (libtf_get_input_data_hwc V it out).ret = 0 ∧
      (libtf_get_input_data_hwc V it out).out = ⟨h, w, c⟩) ∧
    ((libtf_get_input_data_hwc V it out).ret ≠ 0 →
      (libtf_invoke V it).ret = (libtf_get_input_data_hwc V it out).ret ∧
      (libtf_invoke V it).trace = (libtf_get_input_data_hwc V it out).trace ∧
      inputCallbackCount (libtf_invoke V it).trace = 0 ∧
      outputCallbackCount (libtf_invoke V it).trace = 0) := by
  rw [libtf_get_input_data_hwc_eq, libtf_invoke_eq]
  by_cases h1 : it.version = V
  swap
  · simp [h1, inputCallbackCount, outputCallbackCount, Event.isInputCallback,
      Event.isOutputCallback]
  by_cases h2 : it.AllocateTensors = TfLiteStatus.kTfLiteOk
  swap
  · simp [h1, h2, inputCallbackCount, outputCallbackCount, Event.isInputCallback,
      Event.isOutputCallback]
  cases hi : inputBranch it.input0 with
  | error m =>
    simp [h1, h2, inputCallbackCount, outputCallbackCount, Event.isInputCallback,
      Event.isOutputCallback]
  | ok s =>
    by_cases h3 : it.Invoke = TfLiteStatus.kTfLiteOk
    swap
    · simp [h1, h2, h3, inputCallbackCount, outputCallbackCount, Event.isInputCallback,
        Event.isOutputCallback]
      intro h w c eh ew ec
      subst eh ew ec
      rfl
    cases ho : outputBranch it.output0Invoked with
    | error m =>
      simp [h1, h2, h3, inputCallbackCount, outputCallbackCount, Event.isInputCallback,
        Event.isOutputCallback]
      intro h w c eh ew ec
      subst eh ew ec
      rfl
    | ok t =>
      simp [h1, h2, h3, inputCallbackCount, outputCallbackCount, Event.isInputCallback,
        Event.isOutputCallback]
      intro h w c eh ew ec
      subst eh ew ec
      rfl

/-- Claim C13, the scenarios of the specification: with input dims `[1, 96, 96, 1]` the
introspection stores `(96, 96, 1)`, the triple the callback receives; with input dims
`[1, 64, 64, 4]` the driver fails exactly like the introspection. -/
theorem C13_input_introspection_agrees_witness :
    (Event.input_callback 96 96 1 ∈
        (libtf_invoke 3 (scenario 3 .kTfLiteOk [1, 96, 96, 1] .kTfLiteOk [1, 10])).trace ∧
      (libtf_get_input_data_hwc 3 (scenario 3 .kTfLiteOk [1, 96, 96, 1] .kTfLiteOk [1, 10])
        ⟨0, 0, 0⟩).out = ⟨96, 96, 1⟩) ∧
    (libtf_invoke 3 (scenario 3 .kTfLiteOk [1, 64, 64, 4] .kTfLiteOk [1, 10])).trace =
      (libtf_get_input_data_hwc 3 (scenario 3 .kTfLiteOk [1, 64, 64, 4] .kTfLiteOk [1, 10])
        ⟨0, 0, 0⟩).trace :=
  ⟨⟨by decide,
    ((C13_input_introspection_agrees 3
      (scenario 3 .kTfLiteOk [1, 96, 96, 1] .kTfLiteOk [1, 10]) ⟨0, 0, 0⟩).2.2.1 96 96 1
      (by decide)).2⟩,
   ((C13_input_introspection_agrees 3
      (scenario 3 .kTfLiteOk [1, 64, 64, 4] .kTfLiteOk [1, 10]) ⟨0, 0, 0⟩).2.2.2
      (by decide)).2.1⟩

/-- Claim C14: for a model whose input shape is accepted, whose forward pass succeeds
and whose output dims are the same before and after the pass,
`libtf_get_output_data_hwc` returns 0 if and only if `libtf_invoke` calls the
output-read callback (then exactly once); every call of the callback receives exactly
the triple that the introspection stores; and when the introspection fails,
`libtf_invoke` fails with the same return value and the same reported message. -/
theorem C14_output_introspection_agrees (V : Int) (it : Interpreter) (out : Hwc)
    (hin : (libtf_get_input_data_hwc V it out).ret = 0)
    (hinv : it.Invoke = TfLiteStatus.kTfLiteOk)
    (hdims : it.output0Invoked = it.output0) :
    ((libtf_get_output_data_hwc V it out).ret = 0 ↔
      outputCallbackCount (libtf_invoke V it).trace = 1) ∧
    ((libtf_get_output_data_hwc V it out).ret = 0 ↔
      ∃ h w c, Event.output_callback h w c ∈ (libtf_invoke V it).trace) ∧
    (∀ h w c, Event.output_callback h w c ∈ (libtf_invoke V it).trace →
      (libtf_get_output_data_hwc V it out).ret = 0 ∧
      (libtf_get_output_data_hwc V it out).out = ⟨h, w, c⟩) ∧
    ((libtf_get_output_data_hwc V it out).ret ≠ 0 →
      (libtf_invoke V it).ret = (libtf_get_output_data_hwc V it out).ret ∧
      reports (libtf_invoke V it).trace = reports (libtf_get_output_data_hwc V it out).trace ∧
      outputCallbackCount (libtf_invoke V it).trace = 0) := by
  rw [libtf_get_input_data_hwc_eq] at hin
  rw [libtf_get_output_data_hwc_eq, libtf_invoke_eq, hdims]
  by_cases h1 : it.version = V
  swap
  · simp [h1] at hin
  by_cases h2 : it.AllocateTensors = TfLiteStatus.kTfLiteOk
  swap
  · simp [h1, h2] at hin
  cases hi : inputBranch it.input0 with
  | error m => simp [h1, h2, hi] at hin
  | ok s =>
    cases ho : outputBranch it.output0 with
    | error m =>
      simp [h1, h2, hinv, reports, outputCallbackCount, Event.isInputCallback,
        Event.isOutputCallback]
    | ok t =>
      simp [h1, h2, hinv, reports, outputCallbackCount, Event.isInputCallback,
        Event.isOutputCallback]
      intro h w c eh ew ec
      subst eh ew ec
      rfl

/-- Claim C14, the scenario of the specification: output dims `[5]` give `(1, 1, 5)` in
the introspection and in the callback of `libtf_invoke`. -/
theorem C14_output_introspection_agrees_witness :
    Event.output_callback 1 1 5 ∈
      (libtf_invoke 3 (scenario 3 .kTfLiteOk [1, 96, 96, 1] .kTfLiteOk [5])).trace ∧
    (libtf_get_output_data_hwc 3 (scenario 3 .kTfLiteOk [1, 96, 96, 1] .kTfLiteOk [5])
      ⟨0, 0, 0⟩).ret = 0 ∧
    (libtf_get_output_data_hwc 3 (scenario 3 .kTfLiteOk [1, 96, 96, 1] .kTfLiteOk [5])
      ⟨0, 0, 0⟩).out = ⟨1, 1, 5⟩ :=
  ⟨by decide,
   (C14_output_introspection_agrees 3 (scenario 3 .kTfLiteOk [1, 96, 96, 1] .kTfLiteOk [5])
      ⟨0, 0, 0⟩ (by decide) rfl rfl).2.2.1 1 1 5 (by decide)⟩

/-- Claim C15: when the schema version matches and `AllocateTensors()` fails, each of
the three operations returns 1 after reporting the allocation message and does nothing
else: the out-parameters keep their values, no tensor is fetched, no callback is called
and no forward pass is run. -/
theorem C15_allocation_failure (V : Int) (it : Interpreter) (out : Hwc)
    (hv : it.version = V) (ha : it.AllocateTensors ≠ TfLiteStatus.kTfLiteOk) :
    libtf_get_input_data_hwc V it out =
      ⟨1, out, [Event.AllocateTensors, Event.Report MSG_ALLOCATE_TENSORS]⟩ ∧
    libtf_get_output_data_hwc V it out =
      ⟨1, out, [Event.AllocateTensors, Event.Report MSG_ALLOCATE_TENSORS]⟩ ∧
    libtf_invoke V it = ⟨1, [Event.AllocateTensors, Event.Report MSG_ALLOCATE_TENSORS]⟩ ∧
    inputCallbackCount (libtf_invoke V it).trace = 0 ∧
    outputCallbackCount (libtf_invoke V it).trace = 0 ∧
    invokeCount (libtf_invoke V it).trace = 0 := by
  rw [libtf_get_input_data_hwc_eq, libtf_get_output_data_hwc_eq, libtf_invoke_eq]
  simp [hv, ha, inputCallbackCount, outputCallbackCount, invokeCount, Event.isInputCallback,
    Event.isOutputCallback]

/-- Claim C15, concrete instance: a failing allocation with acceptable dims; the
out-parameters `(7, 8, 9)` are returned untouched. -/
theorem C15_allocation_failure_witness :
    libtf_get_input_data_hwc 3 (scenario 3 .kTfLiteError [1, 96, 96, 1] .kTfLiteOk [1, 10])
        ⟨7, 8, 9⟩ =
      ⟨1, ⟨7, 8, 9⟩, [Event.AllocateTensors, Event.Report MSG_ALLOCATE_TENSORS]⟩ ∧
    libtf_invoke 3 (scenario 3 .kTfLiteError [1, 96, 96, 1] .kTfLiteOk [1, 10]) =
      ⟨1, [Event.AllocateTensors, Event.Report MSG_ALLOCATE_TENSORS]⟩ :=
  ⟨(C15_allocation_failure 3 (scenario 3 .kTfLiteError [1, 96, 96, 1] .kTfLiteOk [1, 10])
      ⟨7, 8, 9⟩ rfl (by decide)).1,
   (C15_allocation_failure 3 (scenario 3 .kTfLiteError [1, 96, 96, 1] .kTfLiteOk [1, 10])
      ⟨7, 8, 9⟩ rfl (by decide)).2.2.1⟩

/-- Claim C16: in every call of `libtf_invoke` that reaches the inference step (the
input introspection succeeds on the same interpreter: schema version matching,
allocation succeeding, input shape accepted) the forward pass is run exactly once; if
the pass fails, the call returns 1 after reporting the inference message as its last
action, the output tensor is never fetched and the output-read callback is not called. -/
theorem C16_single_forward_pass (V : Int) (it : Interpreter) (out : Hwc)
    (hin : (libtf_get_input_data_hwc V it out).ret = 0) :
    invokeCount (libtf_invoke V it).trace = 1 ∧
    (it.Invoke ≠ TfLiteStatus.kTfLiteOk →
      libtf_invoke V it =
        ⟨1, [Event.AllocateTensors, Event.input 0,
          Event.input_callback (libtf_get_input_data_hwc V it out).out.height
            (libtf_get_input_data_hwc V it out).out.width
            (libtf_get_input_data_hwc V it out).out.channels,
          Event.Invoke, Event.Report MSG_INVOKE]⟩ ∧
      (∀ i, Event.output i ∉ (libtf_invoke V it).trace) ∧
      outputCallbackCount (libtf_invoke V it).trace = 0) := by
  rw [libtf_get_input_data_hwc_eq] at hin
  rw [libtf_get_input_data_hwc_eq, libtf_invoke_eq]
  by_cases h1 : it.version = V
  swap
  · simp [h1] at hin
  by_cases h2 : it.AllocateTensors = TfLiteStatus.kTfLiteOk
  swap
  · simp [h1, h2] at hin
  cases hi : inputBranch it.input0 with
  | error m => simp [h1, h2, hi] at hin
  | ok s =>
    by_cases h3 : it.Invoke = TfLiteStatus.kTfLiteOk
    swap
    · simp [h1, h2, h3, invokeCount, outputCallbackCount, Event.isOutputCallback]
    cases ho : outputBranch it.output0Invoked with
    | error m => simp [h1, h2, h3, invokeCount]
    | ok t => simp [h1, h2, h3, invokeCount]

/-- Claim C16, concrete instance: input dims `[1, 96, 96, 1]` with a failing forward
pass. -/
theorem C16_single_forward_pass_witness :
    invokeCount
      (libtf_invoke 3 (scenario 3 .kTfLiteOk [1, 96, 96, 1] .kTfLiteError [1, 10])).trace = 1 ∧
    libtf_invoke 3 (scenario 3 .kTfLiteOk [1, 96, 96, 1] .kTfLiteError [1, 10]) =
      ⟨1, [Event.AllocateTensors, Event.input 0, Event.input_callback 96 96 1, Event.Invoke,
        Event.Report MSG_INVOKE]⟩ :=
  ⟨(C16_single_forward_pass 3 (scenario 3 .kTfLiteOk [1, 96, 96, 1] .kTfLiteError [1, 10])
      ⟨0, 0, 0⟩ (by decide)).1,
   ((C16_single_forward_pass 3 (scenario 3 .kTfLiteOk [1, 96, 96, 1] .kTfLiteError [1, 10])
      ⟨0, 0, 0⟩ (by decide)).2 (by decide)).1⟩

/-- Claim C17, as stated, fails: with input dims `[1, 96, 96, 1]` and output dims
`[2, 10]` the call of `libtf_invoke` fails the output shape canonicalization (batch
size), and the forward pass has been run in that call. -/
theorem C17_rejection_before_inference_counterexample :
    (libtf_invoke 3 (scenario 3 .kTfLiteOk [1, 96, 96, 1] .kTfLiteOk [2, 10])).failsWith
      MSG_OUTPUT_BATCH ∧
    Event.Invoke ∈
      (libtf_invoke 3 (scenario 3 .kTfLiteOk [1, 96, 96, 1] .kTfLiteOk [2, 10])).trace ∧
    libtf_invoke 3 (scenario 3 .kTfLiteOk [1, 96, 96, 1] .kTfLiteOk [2, 10]) =
      ⟨1, [Event.AllocateTensors, Event.input 0, Event.input_callback 96 96 1, Event.Invoke,
        Event.output 0, Event.Report MSG_OUTPUT_BATCH]⟩ := by
  decide

/-- Claim C17, amended: a call of `libtf_invoke` that fails the canonicalization of the
input tensor's shape has not run the forward pass; a call that fails the
canonicalization of the output tensor's shape has run it exactly once, the output shape
being checked after the pass. -/
theorem C17_rejection_before_inference (V : Int) (it : Interpreter) :
    ((∃ msg ∈ inputShapeMessages, Event.Report msg ∈ (libtf_invoke V it).trace) →
      invokeCount (libtf_invoke V it).trace = 0) ∧
    ((∃ msg ∈ outputShapeMessages, Event.Report msg ∈ (libtf_invoke V it).trace) →
      invokeCount (libtf_invoke V it).trace = 1) := by
  rw [libtf_invoke_eq]
  by_cases h1 : it.version = V
  swap
  · simp [h1, invokeCount, outputShapeMessages, MSG_SCHEMA_VERSION, MSG_OUTPUT_BATCH,
      MSG_OUTPUT_DIMS]
  by_cases h2 : it.AllocateTensors = TfLiteStatus.kTfLiteOk
  swap
  · simp [h1, h2, invokeCount, outputShapeMessages, MSG_ALLOCATE_TENSORS, MSG_OUTPUT_BATCH,
      MSG_OUTPUT_DIMS]
  cases hi : inputBranch it.input0 with
  | error m =>
    have hm := inputBranch_error_mem hi
    simp only [inputShapeMessages, List.mem_cons, List.mem_singleton, List.not_mem_nil,
      or_false] at hm
    rcases hm with rfl | rfl | rfl <;>
      simp [h1, h2, invokeCount, outputShapeMessages, MSG_INPUT_CHANNELS, MSG_INPUT_BATCH,
        MSG_INPUT_DIMS, MSG_OUTPUT_BATCH, MSG_OUTPUT_DIMS]
  | ok s =>
    by_cases h3 : it.Invoke = TfLiteStatus.kTfLiteOk
    swap
    · simp [h1, h2, h3, invokeCount, inputShapeMessages, outputShapeMessages,
        MSG_INPUT_CHANNELS, MSG_INPUT_BATCH, MSG_INPUT_DIMS, MSG_OUTPUT_BATCH,
        MSG_OUTPUT_DIMS, MSG_INVOKE]
    cases ho : outputBranch it.output0Invoked with
    | error m =>
      have hm := outputBranch_error_mem ho
      simp only [outputShapeMessages, List.mem_cons, List.mem_singleton, List.not_mem_nil,
        or_false] at hm
      rcases hm with rfl | rfl <;>
        simp [h1, h2, h3, invokeCount, inputShapeMessages, MSG_INPUT_CHANNELS,
          MSG_INPUT_BATCH, MSG_INPUT_DIMS, MSG_OUTPUT_BATCH, MSG_OUTPUT_DIMS]
    | ok t => simp [h1, h2, h3, invokeCount, inputShapeMessages, outputShapeMessages]

/-- Claim C17 amended, concrete instances: input dims `[1, 64, 64, 4]` are rejected
without a forward pass; output dims `[2, 10]` are rejected after one forward pass. -/
theorem C17_rejection_before_inference_witness :
    invokeCount
      (libtf_invoke 3 (scenario 3 .kTfLiteOk [1, 64, 64, 4] .kTfLiteOk [1, 10])).trace = 0 ∧
    invokeCount
      (libtf_invoke 3 (scenario 3 .kTfLiteOk [1, 96, 96, 1] .kTfLiteOk [2, 10])).trace = 1 :=
  ⟨(C17_rejection_before_inference 3
      (scenario 3 .kTfLiteOk [1, 64, 64, 4] .kTfLiteOk [1, 10])).1
      ⟨MSG_INPUT_CHANNELS, by decide, by decide⟩,
   (C17_rejection_before_inference 3
      (scenario 3 .kTfLiteOk [1, 96, 96, 1] .kTfLiteOk [2, 10])).2
      ⟨MSG_OUTPUT_BATCH, by decide, by decide⟩⟩

/-- Claim C18: `libtf_invoke` returns 0 if and only if the schema version matches, the
allocation succeeds, the input dims satisfy the input rules, the forward pass succeeds
and the output dims read after the pass satisfy the output rules; otherwise it returns
1 and reports exactly one message, that of the first of these five conditions, in this
order, that does not hold. -/
theorem C18_success_iff_and_first_failure (V : Int) (it : Interpreter) :
    ((libtf_invoke V it).ret = 0 ↔
      it.version = V ∧ it.AllocateTensors = TfLiteStatus.kTfLiteOk ∧
      SpecInputRules it.input0 ∧ it.Invoke = TfLiteStatus.kTfLiteOk ∧
      SpecOutputRules it.output0Invoked) ∧
    (it.version ≠ V →
      (libtf_invoke V it).ret = 1 ∧ reports (libtf_invoke V it).trace = [MSG_SCHEMA_VERSION]) ∧
    (it.version = V → it.AllocateTensors ≠ TfLiteStatus.kTfLiteOk →
      (libtf_invoke V it).ret = 1 ∧
      reports (libtf_invoke V it).trace = [MSG_ALLOCATE_TENSORS]) ∧
    (it.version = V → it.AllocateTensors = TfLiteStatus.kTfLiteOk →
      ¬ SpecInputRules it.input0 →
      (libtf_invoke V it).ret = 1 ∧
      ∃ m ∈ inputShapeMessages, reports (libtf_invoke V it).trace = [m]) ∧
    (it.version = V → it.AllocateTensors = TfLiteStatus.kTfLiteOk →
      SpecInputRules it.input0 → it.Invoke ≠ TfLiteStatus.kTfLiteOk →
      (libtf_invoke V it).ret = 1 ∧ reports (libtf_invoke V it).trace = [MSG_INVOKE]) ∧
    (it.version = V → it.AllocateTensors = TfLiteStatus.kTfLiteOk →
      SpecInputRules it.input0 → it.Invoke = TfLiteStatus.kTfLiteOk →
      ¬ SpecOutputRules it.output0Invoked →
      (libtf_invoke V it).ret = 1 ∧
      ∃ m ∈ outputShapeMessages, reports (libtf_invoke V it).trace = [m]) := by
  have hI := inputBranch_ok_iff it.input0
  have hO := outputBranch_ok_iff it.output0Invoked
  rw [libtf_invoke_eq]
  by_cases h1 : it.version = V
  swap
  · simp [h1, reports]
  by_cases h2 : it.AllocateTensors = TfLiteStatus.kTfLiteOk
  swap
  · simp [h1, h2, reports]
  cases hi : inputBranch it.input0 with
  | error m =>
    have hni : ¬ SpecInputRules it.input0 := by
      rw [← hI, hi]
      simp
    simp [h1, h2, hni, reports, inputBranch_error_mem hi]
  | ok s =>
    have hsi : SpecInputRules it.input0 := hI.mp ⟨s, hi⟩
    by_cases h3 : it.Invoke = TfLiteStatus.kTfLiteOk
    swap
    · simp [h1, h2, h3, hsi, reports]
    cases ho : outputBranch it.output0Invoked with
    | error m =>
      have hno : ¬ SpecOutputRules it.output0Invoked := by
        rw [← hO, ho]
        simp
      simp [h1, h2, h3, hsi, hno, reports, outputBranch_error_mem ho]
    | ok t =>
      have hso : SpecOutputRules it.output0Invoked := hO.mp ⟨t, ho⟩
      simp [h1, h2, h3, hsi, hso, reports]

/-- Claim C18, concrete instances: a schema mismatch is reported even though the
allocation would fail too; a failing forward pass is reported even though the output
dims `[2, 10]` would be rejected. -/
theorem C18_success_iff_and_first_failure_witness :
    ((libtf_invoke 3 (scenario 2 .kTfLiteError [784] .kTfLiteError [2, 10])).ret = 1 ∧
      reports (libtf_invoke 3 (scenario 2 .kTfLiteError [784] .kTfLiteError [2, 10])).trace =
        [MSG_SCHEMA_VERSION]) ∧
    ((libtf_invoke 3 (scenario 3 .kTfLiteOk [96, 96] .kTfLiteError [2, 10])).ret = 1 ∧
      reports (libtf_invoke 3 (scenario 3 .kTfLiteOk [96, 96] .kTfLiteError [2, 10])).trace =
        [MSG_INVOKE]) :=
  ⟨(C18_success_iff_and_first_failure 3
      (scenario 2 .kTfLiteError [784] .kTfLiteError [2, 10])).2.1 (by decide),
   (C18_success_iff_and_first_failure 3
      (scenario 3 .kTfLiteOk [96, 96] .kTfLiteError [2, 10])).2.2.2.2.1 rfl rfl (by decide)
      (by decide)⟩

/-- Claim C19: a failing call of `libtf_get_input_data_hwc` or
`libtf_get_output_data_hwc` leaves all three out-parameters as they were, whatever they
held; a successful call determines all three, independently of what they held (each of
them is written). -/
theorem C19_out_parameters_atomic (V : Int) (it : Interpreter) (out : Hwc) :
    ((libtf_get_input_data_hwc V it out).ret ≠ 0 →
      (libtf_get_input_data_hwc V it out).out = out) ∧
    ((libtf_get_input_data_hwc V it out).ret = 0 →
      ∀ other : Hwc,
        (libtf_get_input_data_hwc V it other).ret = 0 ∧
        (libtf_get_input_data_hwc V it other).out.height =
          (libtf_get_input_data_hwc V it out).out.height ∧
        (libtf_get_input_data_hwc V it other).out.width =
          (libtf_get_input_data_hwc V it out).out.width ∧
        (libtf_get_input_data_hwc V it other).out.channels =
          (libtf_get_input_data_hwc V it out).out.channels) ∧
    ((libtf_get_output_data_hwc V it out).ret ≠ 0 →
      (libtf_get_output_data_hwc V it out).out = out) ∧
    ((libtf_get_output_data_hwc V it out).ret = 0 →
      ∀ other : Hwc,
        (libtf_get_output_data_hwc V it other).ret = 0 ∧
        (libtf_get_output_data_hwc V it other).out.height =
          (libtf_get_output_data_hwc V it out).out.height ∧
        (libtf_get_output_data_hwc V it other).out.width =
          (libtf_get_output_data_hwc V it out).out.width ∧
        (libtf_get_output_data_hwc V it other).out.channels =
          (libtf_get_output_data_hwc V it out).out.channels) := by
  simp only [libtf_get_input_data_hwc_eq, libtf_get_output_data_hwc_eq]
  by_cases h1 : it.version = V
  swap
  · simp [h1]
  by_cases h2 : it.AllocateTensors = TfLiteStatus.kTfLiteOk
  swap
  · simp [h1, h2]
  cases hi : inputBranch it.input0 <;> cases ho : outputBranch it.output0 <;> simp [h1, h2]

/-- Claim C19, concrete instances: a rejected input rank leaves `(7, 8, 9)` in place; an
accepted output shape overwrites all of `(7, 8, 9)`, as it does `(0, 0, 0)`. -/
theorem C19_out_parameters_atomic_witness :
    (libtf_get_input_data_hwc 3 (scenario 3 .kTfLiteOk [784] .kTfLiteOk [1, 10])
      ⟨7, 8, 9⟩).out = ⟨7, 8, 9⟩ ∧
    ((libtf_get_output_data_hwc 3 (scenario 3 .kTfLiteOk [784] .kTfLiteOk [1, 10])
        ⟨0, 0, 0⟩).ret = 0 ∧
      (libtf_get_output_data_hwc 3 (scenario 3 .kTfLiteOk [784] .kTfLiteOk [1, 10])
        ⟨0, 0, 0⟩).out.height =
        (libtf_get_output_data_hwc 3 (scenario 3 .kTfLiteOk [784] .kTfLiteOk [1, 10])
          ⟨7, 8, 9⟩).out.height ∧
      (libtf_get_output_data_hwc 3 (scenario 3 .kTfLiteOk [784] .kTfLiteOk [1, 10])
        ⟨0, 0, 0⟩).out.width =
        (libtf_get_output_data_hwc 3 (scenario 3 .kTfLiteOk [784] .kTfLiteOk [1, 10])
          ⟨7, 8, 9⟩).out.width ∧
      (libtf_get_output_data_hwc 3 (scenario 3 .kTfLiteOk [784] .kTfLiteOk [1, 10])
        ⟨0, 0, 0⟩).out.channels =
        (libtf_get_output_data_hwc 3 (scenario 3 .kTfLiteOk [784] .kTfLiteOk [1, 10])
          ⟨7, 8, 9⟩).out.channels) :=
  ⟨(C19_out_parameters_atomic 3 (scenario 3 .kTfLiteOk [784] .kTfLiteOk [1, 10])
      ⟨7, 8, 9⟩).1 (by decide),
   (C19_out_parameters_atomic 3 (scenario 3 .kTfLiteOk [784] .kTfLiteOk [1, 10])
      ⟨7, 8, 9⟩).2.2.2 (by decide) ⟨0, 0, 0⟩⟩

end Libtf
